import Mathlib

/-!
Verification development for the cmd-plants repository.

The repository holds two near-duplicate implementations of an ASCII garden
generator, `flowers.py` and `garden.py`.  The definitions below are shallow
embeddings of their functions: rows of glyphs are `List Char`, Python integers
are `Int` (with `//` as `Int.fdiv` and string repetition clamping negative
counts to zero, as Python does), Python floats are idealized as `ℚ` (all
comparisons settled in the theorems below are far from the float rounding
error, see the comments at the round/broad disc definitions), and fallible
code (out-of-range indexing, division by zero) returns `Option`.

A `random.Random` object is modelled abstractly: the code only observes the
values returned by `choice`, `randint` and `random`, so a source is a pair of
read-once streams plus positions, and the theorems quantify over all streams.
-/

abbrev Row := List Char

/-- Abstract model of `random.Random`: two read-once value streams. -/
structure Rng where
  ints : Nat → Nat
  rats : Nat → ℚ
  ipos : Nat
  rpos : Nat

def Rng.nextNat (g : Rng) : Nat × Rng :=
  (g.ints g.ipos, { g with ipos := g.ipos + 1 })

def Rng.nextRat (g : Rng) : ℚ × Rng :=
  (g.rats g.rpos, { g with rpos := g.rpos + 1 })

/-- `rng.choice(l)`: an arbitrary element of `l`.  The default is never
reached for the nonempty palettes the code passes. -/
def Rng.choose (g : Rng) (l : List α) (dflt : α) : α × Rng :=
  let p := g.nextNat
  (l.getD (p.1 % l.length) dflt, p.2)

/-- `rng.randint(a, b)`: an arbitrary integer of `[a, b]` (for `a ≤ b`,
the only way the sources call it on the inputs settled below). -/
def Rng.randint (g : Rng) (a b : Int) : Int × Rng :=
  let p := g.nextNat
  (a + (p.1 : Int) % (b - a + 1), p.2)

/-- `rng.random()`: an arbitrary rational, idealizing the float in `[0,1)`. -/
def Rng.randReal (g : Rng) : ℚ × Rng := g.nextRat

/-- Python `c * n` for a one-character string: negative counts give `""`. -/
def pyRepeat (n : Int) (c : Char) : List Char := List.replicate n.toNat c

/-- Python `s * n` for a whole string. -/
def pyRepeatRow (n : Int) (l : List Char) : List Char :=
  (List.replicate n.toNat l).flatten

/-- The ASCII whitespace Python's `str.rstrip` can meet in this program. -/
def isPyWs (c : Char) : Bool :=
  c == ' ' || c == '\t' || c == '\n' || c == '\r' || c == '\x0b' || c == '\x0c'

/-- Python `str.rstrip()`. -/
def pyRstrip (l : List Char) : List Char := (l.reverse.dropWhile isPyWs).reverse

/-- Python `range(a, b)` as a list of integers (empty when `b ≤ a`). -/
def intRange (a b : Int) : List Int :=
  (List.range (b - a).toNat).map (fun i => a + Int.ofNat i)

/-- Python `max(l, default=d)` over integers. -/
def pyMaxD (d : Int) : List Int → Int
  | [] => d
  | x :: xs => xs.foldl max x

/-- Python `max(l, default=0)` over natural numbers (visible lengths). -/
def natMax (l : List Nat) : Nat := l.foldl max 0

/-- Python `str.startswith` (a kernel-computable form of `String.startsWith`). -/
def pyStartsWith (s pat : String) : Bool := pat.toList.isPrefixOf s.toList

/-- Python `str.endswith`. -/
def pyEndsWith (s pat : String) : Bool := pat.toList.reverse.isPrefixOf s.toList.reverse

/-- The ANSI table (identical in both files), with the `ANSI.get(name, '')`
lookup semantics: unknown names give the empty string. -/
def ANSI (name : String) : List Char :=
  (match name with
   | "reset" => "\x1b[0m"
   | "red" => "\x1b[31m"
   | "green" => "\x1b[32m"
   | "yellow" => "\x1b[33m"
   | "blue" => "\x1b[34m"
   | "magenta" => "\x1b[35m"
   | "cyan" => "\x1b[36m"
   | "bright_yellow" => "\x1b[93m"
   | "bright_green" => "\x1b[92m"
   | "brown" => "\x1b[38;5;94m"
   | _ => "").toList

/-- `_color_wrap` (identical in both files). -/
def colorWrap (s : List Char) (color : String) (enabled : Bool) : List Char :=
  if enabled then ANSI color ++ s ++ ANSI "reset" else s

/-- The left-to-right scan of `re.sub(r"\x1b\[[0-9;]*m", "", s)`, written as a
one-pass state machine.  `pend` is the partially matched candidate: `[]` in
normal scanning, `['\x1b']` after an escape, and `'\x1b' :: '[' :: ds` (with
`ds` digits or semicolons) inside a candidate body.  On a failed candidate the
pending characters are flushed verbatim and scanning restarts at the failing
character, which matches `re.sub`: no new match can begin inside the flushed
characters, since only `'\x1b'` starts one and `pend` holds none after its
head (whose own candidate just failed). -/
def stripGo : List Char → List Char → List Char
  | pend, [] => pend
  | [], c :: rest =>
    if c == '\x1b' then stripGo [c] rest else c :: stripGo [] rest
  | [p], c :: rest =>
    if c == '[' then stripGo [p, c] rest
    else if c == '\x1b' then p :: stripGo [c] rest
    else p :: c :: stripGo [] rest
  | p :: q :: ds, c :: rest =>
    if c == 'm' then stripGo [] rest
    else if c.isDigit || c == ';' then stripGo (p :: q :: (ds ++ [c])) rest
    else if c == '\x1b' then (p :: q :: ds) ++ stripGo [c] rest
    else (p :: q :: ds) ++ c :: stripGo [] rest

/-- `_strip_ansi` (identical in both files): remove every occurrence of the
regex `\x1b\[[0-9;]*m`, scanning left to right exactly as `re.sub` does. -/
def stripAnsi (l : List Char) : List Char := stripGo [] l

/-- `_visible_len` (identical in both files). -/
def visibleLen (l : List Char) : Nat := (stripAnsi l).length

/-- One cell of the round-flower disc (`_make_round_flower`, identical in both
files): the float test `(x/2)**2 + y**2 <= (radius + 0.25 - noise)**2` is
idealized over `ℚ` with `0.6` as `3/5`; the concrete inputs evaluated below
use `noise = 0`, where the Python float comparison is exact. -/
def discCell (radius y x : Int) (petal center : Char) (g : Rng) : Char × Rng :=
  let p := g.randReal
  let noise : ℚ := p.1 * (3/5)
  let dx : ℚ := (x : ℚ) / 2
  let d2 : ℚ := dx * dx + (y : ℚ) * (y : ℚ)
  if d2 ≤ ((radius : ℚ) + 1/4 - noise) ^ 2 then
    if x.natAbs ≤ 1 ∧ y.natAbs ≤ 1 then (center, p.2) else (petal, p.2)
  else (' ', p.2)

def discRowGo (radius y : Int) (petal center : Char) :
    List Int → Rng → List Char × Rng
  | [], g => ([], g)
  | x :: xs, g =>
    let p := discCell radius y x petal center g
    let q := discRowGo radius y petal center xs p.2
    (p.1 :: q.1, q.2)

def discRowsGo (radius : Int) (petal center : Char) :
    List Int → Rng → List Row × Rng
  | [], g => ([], g)
  | y :: ys, g =>
    let p := discRowGo radius y petal center (intRange (-(2*radius)) (2*radius + 1)) g
    let q := discRowsGo radius petal center ys p.2
    (pyRstrip p.1 :: q.1, q.2)

/-- The rasterized disc of `_make_round_flower` (rows `y ∈ [-radius, radius]`,
columns `x ∈ [-2·radius, 2·radius]`, each row right-stripped). -/
def roundDisc (radius : Int) (petal center : Char) (g : Rng) : List Row × Rng :=
  discRowsGo radius petal center (intRange (-radius) (radius + 1)) g

/-- The broad-tree canopy (identical in both files): the float threshold
`(radius + 0.2)**2` is idealized as `(radius + 1/5)^2`; every cell value
`x²/4 + y²` is a multiple of `1/4` at distance ≥ 1/100 from the threshold,
far outside double rounding error, so the idealization is exact. -/
def broadDisc (radius : Int) : List Row :=
  (intRange (-radius) (radius + 1)).map (fun (y : Int) =>
    pyRstrip ((intRange (-(2*radius)) (2*radius + 1)).map (fun (x : Int) =>
      if ((x : ℚ)/2) * ((x : ℚ)/2) + (y : ℚ) * (y : ℚ) ≤ ((radius : ℚ) + 1/5) ^ 2
      then '#' else ' ')))

namespace FlowersPy

def PETAL_CHARS : List Char := ['*', 'o', '@', 'O', '0', '+', 'x', 'X']
def CENTER_CHARS : List Char := ['@', '*', 'O', '.']
def STEM_CHAR : Char := '|'

/-- `flowers.py _make_round_flower`; `none` models the crash on an empty disc
(the `lines[0]` access / the empty `randint` range, hit only for `size ≤ -2`). -/
def makeRoundFlower (size : Int) (g : Rng) : Option (List Row × Rng) :=
  let radius := 1 + size
  let p1 := g.choose PETAL_CHARS ' '
  let p2 := p1.2.choose CENTER_CHARS ' '
  let pd := roundDisc radius p1.1 p2.1 p2.2
  let ph := pd.2.randint (1 + size) (2 + 2 * size)
  match pd.1 with
  | [] => none
  | l0 :: rest =>
    some ((l0 :: rest) ++
      List.replicate ph.1.toNat (List.replicate (l0.length / 2) ' ' ++ [STEM_CHAR]), ph.2)

/-- `flowers.py _make_star_flower` (no size clamping in the source). -/
def makeStarFlower (size : Int) (g : Rng) : List Row × Rng :=
  let p1 := g.choose PETAL_CHARS ' '
  let p2 := p1.2.choose CENTER_CHARS ' '
  let s := size
  let petal := p1.1
  let center := p2.1
  let base : List Row := [
    pyRepeat (2*s) ' ' ++ [petal],
    pyRepeat s ' ' ++ [petal] ++ pyRepeat (2*s - 1) ' ' ++ [petal],
    [petal] ++ pyRepeat (4*s - 1) ' ' ++ [petal],
    pyRepeat s ' ' ++ [petal] ++ pyRepeat (2*s - 1) ' ' ++ [petal],
    pyRepeat (2*s) ' ' ++ [center]]
  let pr := p2.2.randint 0 s
  (base ++ List.replicate (1 + s + pr.1).toNat (pyRepeat (2*s) ' ' ++ [STEM_CHAR]), pr.2)

/-- `flowers.py _make_tulip`. -/
def makeTulip (size : Int) (g : Rng) : List Row × Rng :=
  let p1 := g.choose PETAL_CHARS ' '
  let p2 := p1.2.choose CENTER_CHARS ' '
  let s := size
  let petal := p1.1
  let center := p2.1
  let base : List Row := [
    pyRepeat (1+s) ' ' ++ [petal] ++ pyRepeat s ' ' ++ [petal],
    pyRepeat s ' ' ++ [petal] ++ pyRepeat (1+s) ' ' ++ [center] ++ pyRepeat s ' ' ++ [petal],
    [petal] ++ pyRepeat (3+s) ' ' ++ [petal]]
  let pl := p2.2.choose ["<>", "/\\", "()", "~~"] ""
  let pr := pl.2.randint 0 2
  (base ++ [pyRepeat (1+s) ' ' ++ pl.1.toList] ++
    List.replicate (1 + s + pr.1).toNat (pyRepeat (2+s) ' ' ++ [STEM_CHAR]), pr.2)

/-- `flowers.py _make_sunflower`. -/
def makeSunflower (size : Int) (g : Rng) : List Row × Rng :=
  let p1 := g.choose ['0', 'O', '*', '@'] ' '
  let p2 := p1.2.choose ['@', '0', 'O'] ' '
  let s := size
  let petal := p1.1
  let center := p2.1
  let base : List Row := [
    pyRepeat (2+s) ' ' ++ pyRepeat (3+s) petal,
    pyRepeat (1+s) ' ' ++ [petal] ++ pyRepeat (1+s) ' ' ++ [center] ++ pyRepeat (1+s) ' ' ++ [petal],
    [petal] ++ pyRepeat (3+s) ' ' ++ [petal]]
  (base ++ List.replicate (2+s).toNat (pyRepeat (2+s) ' ' ++ [STEM_CHAR]), p2.2)

/-- `flowers.py _make_cherry_flower` on a non-Windows platform (`os.name` is a
fixed property of the host, not an input of the program). -/
def makeCherryFlower (size : Int) (g : Rng) : List Row × Rng :=
  let p1 := g.choose ['o', '✿', '❀'] ' '
  let p2 := p1.2.choose ['.', '@'] ' '
  let s := size
  let petal := p1.1
  let center := p2.1
  let base : List Row := [
    pyRepeat (1+s) ' ' ++ [petal] ++ [' '] ++ [petal],
    pyRepeat s ' ' ++ [petal] ++ [center] ++ [petal],
    [petal] ++ pyRepeat (1+s) ' ' ++ [petal]]
  (base ++ List.replicate (1+s).toNat (pyRepeat (2+s) ' ' ++ [STEM_CHAR]), p2.2)

/-- `flowers.py random_flower`, with the caller-supplied rng (as `main` calls it). -/
def randomFlower (size : Int) (g : Rng) : Option (List Row × String × Rng) :=
  let pk := g.choose ["round", "star", "tulip", "sunflower", "cherry"] ""
  let kind := pk.1
  if kind = "round" then
    (makeRoundFlower size pk.2).map (fun r => (r.1, kind, r.2))
  else if kind = "star" then
    let r := makeStarFlower size pk.2
    some (r.1, kind, r.2)
  else if kind = "sunflower" then
    let r := makeSunflower size pk.2
    some (r.1, kind, r.2)
  else if kind = "cherry" then
    let r := makeCherryFlower size pk.2
    some (r.1, kind, r.2)
  else
    let r := makeTulip size pk.2
    some (r.1, kind, r.2)

/-- `flowers.py _make_pine_tree` (the rng parameter is unused in the source). -/
def makePineTree (size : Int) : List Row :=
  let s := max 1 size
  let foliage := (intRange 0 3).flatMap (fun layer =>
    (intRange 0 (1 + 2 * (layer + s))).map (fun row =>
      pyRepeat ((4*s + 2) - row) ' ' ++ pyRepeat (1 + 2*row) '^'))
  let trunkW := 1 + s
  let trunkPad := (4*s + 2) - trunkW.fdiv 2
  foliage ++ List.replicate (1+s).toNat (pyRepeat trunkPad ' ' ++ pyRepeat trunkW '|')

/-- `flowers.py _make_broad_tree`; `none` models the `lines[0]` crash on an
empty canopy (`size ≤ -3`).  The rng parameter is unused in the source. -/
def makeBroadTree (size : Int) : Option (List Row) :=
  let radius := 2 + size
  match broadDisc radius with
  | [] => none
  | l0 :: rest =>
    let trunkW := 1 + size * 2
    let trunkCol := max 0 ((l0.length : Int).fdiv 2 - trunkW.fdiv 2)
    some ((l0 :: rest) ++
      List.replicate (1 + size).toNat (pyRepeat trunkCol ' ' ++ pyRepeat trunkW '|'))

/-- The fixed base art of `flowers.py _make_stylized_tree` (Python's invalid
escapes such as backslash-slash stay as literal character pairs). -/
def stylizedArt : List Row :=
  ["           \\\\/ |    |/",
   "        \\\\/ / \\\\||/  /_/___/_",
   "         \\\\/   |/ \\\\/",
   "    _\\__\\_\\   |  /_____/ _",
   "           \\  | /          /",
   "  __ _-----`  |\x7b,-----------~",
   "            \\ \x7d\x7b",
   "             \x7d\x7b\x7b",
   "             \x7d\x7d\x7b",
   "             \x7b\x7b\x7b\x7d",
   "       , -=-~\x7b .-^- _"].map String.toList

/-- The jittered extra canopy loop of `_make_stylized_tree`. -/
def stylizedCanopy (s : Int) : List Int → Rng → List Row × Rng
  | [], g => ([], g)
  | r :: rs, g =>
    let pp := g.choose ["\\/", "\\/ \\/", " \\/ \\/"] ""
    let pj := pp.2.randint 0 (max 1 s)
    let line := pyRepeat (max 0 (6 - r) + pj.1) ' ' ++
      pyRepeatRow (1 + r % (1 + max 1 s)) pp.1.toList
    let q := stylizedCanopy s rs pj.2
    (line :: q.1, q.2)

/-- `flowers.py _make_stylized_tree`. -/
def makeStylizedTree (size : Int) (g : Rng) : List Row × Rng :=
  let s := max 1 size
  let pc := stylizedCanopy s (intRange 0 (s * 2)) g
  let lines := pc.1 ++ stylizedArt
  let trunkW := 1 + s * 2
  let trunkH := 2 + s
  let finalWidth := pyMaxD trunkW (lines.map (fun ln => (visibleLen ln : Int)))
  let trunkCol := max 0 (finalWidth.fdiv 2 - trunkW.fdiv 2)
  let lines2 := if s ≥ 3 then
      lines ++ [pyRepeat (max 0 (trunkCol - 2)) ' ' ++ pyRepeat (trunkW + 4) '~']
    else lines
  (lines2 ++ List.replicate trunkH.toNat (pyRepeat trunkCol ' ' ++ pyRepeat trunkW '|'), pc.2)

/-- `flowers.py random_tree` (non-Windows: the cherry canopy's `#` becomes `✿`). -/
def randomTree (size : Int) (g : Rng) : Option (List Row × String × Rng) :=
  let pk := g.choose ["pine", "broad", "bonsai", "cherry", "stylized"] ""
  let kind := pk.1
  if kind = "pine" then some (makePineTree size, kind, pk.2)
  else if kind = "bonsai" then
    (makeBroadTree (max 1 (size - 1))).map (fun r => (r, kind, pk.2))
  else if kind = "cherry" then
    (makeBroadTree (size + 1)).map (fun r =>
      (r.map (List.map (fun c => if c = '#' then '✿' else c)), kind, pk.2))
  else if kind = "stylized" then
    let r := makeStylizedTree (size + 1) pk.2
    some (r.1, kind, r.2)
  else (makeBroadTree size).map (fun r => (r, kind, pk.2))

end FlowersPy

namespace FlowersPy

/-- The foliage palettes of `flowers.py colorize_lines`, in source order. -/
def foliagePalette (kind : String) : List String :=
  if pyEndsWith kind "cherry" || pyStartsWith kind "flower_cherry" then
    ["magenta", "bright_yellow"]
  else if pyStartsWith kind "flower_sunflower" then
    ["yellow", "bright_yellow"]
  else if pyStartsWith kind "flower_" then
    ["bright_green", "green", "bright_yellow", "magenta", "red"]
  else
    ["green", "bright_green"]

/-- One line of `flowers.py colorize_lines` with color enabled: spaces pass
through, a maximal run of `|` is wrapped as one unit with a fixed color by
category (no random draw), every other character draws a fresh foliage color. -/
def colorizeLine (kind : String) : List Char → Rng → List Char × Rng
  | [], g => ([], g)
  | c :: rest, g =>
    if c == ' ' then
      let q := colorizeLine kind rest g
      (c :: q.1, q.2)
    else if c == '|' then
      let seg := c :: rest.takeWhile (fun x => x == '|')
      let colr := if pyStartsWith kind "flower_" then "green" else "brown"
      let q := colorizeLine kind (rest.dropWhile (fun x => x == '|')) g
      (colorWrap seg colr true ++ q.1, q.2)
    else
      let pc := g.choose (foliagePalette kind) ""
      let q := colorizeLine kind rest pc.2
      (colorWrap [c] pc.1 true ++ q.1, q.2)
termination_by l _ => l.length
decreasing_by
  · simp
  · simp only [List.length_cons]
    exact Nat.lt_succ_of_le ((List.dropWhile_sublist _).length_le)
  · simp

def colorizeGo (kind : String) : List Row → Rng → List Row × Rng
  | [], g => ([], g)
  | ln :: ls, g =>
    let p := colorizeLine kind ln g
    let q := colorizeGo kind ls p.2
    (p.1 :: q.1, q.2)

/-- `flowers.py colorize_lines`. -/
def colorizeLines (lines : List Row) (kind : String) (enabled : Bool) (g : Rng) :
    List Row × Rng :=
  if enabled then colorizeGo kind lines g else (lines, g)

end FlowersPy

namespace GardenPy

def PETAL_CHARS : List Char := ['*', 'o', '@', 'O', '0', '+', 'x', 'X']
def CENTER_CHARS : List Char := ['@', '*', 'O']
def STEM_CHARS : List Char := ['|', '!', 'i', 'l']

/-- `garden.py _make_round_flower` (same disc as `flowers.py`, but the stem
character is drawn from `STEM_CHARS`). -/
def makeRoundFlower (size : Int) (g : Rng) : Option (List Row × Rng) :=
  let radius := 1 + size
  let p1 := g.choose PETAL_CHARS ' '
  let p2 := p1.2.choose CENTER_CHARS ' '
  let pd := roundDisc radius p1.1 p2.1 p2.2
  let ph := pd.2.randint (1 + size) (2 + 2 * size)
  match pd.1 with
  | [] => none
  | l0 :: rest =>
    let pc := ph.2.choose STEM_CHARS ' '
    some ((l0 :: rest) ++
      List.replicate ph.1.toNat (List.replicate (l0.length / 2) ' ' ++ [pc.1]), pc.2)

/-- `garden.py _make_star_flower`. -/
def makeStarFlower (size : Int) (g : Rng) : List Row × Rng :=
  let p1 := g.choose PETAL_CHARS ' '
  let p2 := p1.2.choose CENTER_CHARS ' '
  let s := size
  let petal := p1.1
  let center := p2.1
  let base : List Row := [
    pyRepeat (2*s) ' ' ++ [petal],
    pyRepeat s ' ' ++ [petal] ++ pyRepeat (2*s - 1) ' ' ++ [petal],
    [petal] ++ pyRepeat (4*s - 1) ' ' ++ [petal],
    pyRepeat s ' ' ++ [petal] ++ pyRepeat (2*s - 1) ' ' ++ [petal],
    pyRepeat (2*s) ' ' ++ [center]]
  let pc := p2.2.choose STEM_CHARS ' '
  let pr := pc.2.randint 0 s
  (base ++ List.replicate (1 + s + pr.1).toNat (pyRepeat (2*s) ' ' ++ [pc.1]), pr.2)

/-- `garden.py _make_tulip`. -/
def makeTulip (size : Int) (g : Rng) : List Row × Rng :=
  let p1 := g.choose PETAL_CHARS ' '
  let p2 := p1.2.choose CENTER_CHARS ' '
  let s := size
  let petal := p1.1
  let center := p2.1
  let base : List Row := [
    pyRepeat (1+s) ' ' ++ [petal] ++ pyRepeat s ' ' ++ [petal],
    pyRepeat s ' ' ++ [petal] ++ pyRepeat (1+s) ' ' ++ [center] ++ pyRepeat s ' ' ++ [petal],
    [petal] ++ pyRepeat (3+s) ' ' ++ [petal]]
  let pl := p2.2.choose ["<>", "/\\", "()", "~~"] ""
  let pc := pl.2.choose STEM_CHARS ' '
  let pr := pc.2.randint 0 2
  (base ++ [pyRepeat (1+s) ' ' ++ pl.1.toList] ++
    List.replicate (1 + s + pr.1).toNat (pyRepeat (2+s) ' ' ++ [pc.1]), pr.2)

/-- `garden.py _make_sunflower`. -/
def makeSunflower (size : Int) (g : Rng) : List Row × Rng :=
  let p1 := g.choose ['0', 'O', '*', '@'] ' '
  let p2 := p1.2.choose ['@', '0', 'O'] ' '
  let s := size
  let petal := p1.1
  let center := p2.1
  let base : List Row := [
    pyRepeat (2+s) ' ' ++ pyRepeat (3+s) petal,
    pyRepeat (1+s) ' ' ++ [petal] ++ pyRepeat (1+s) ' ' ++ [center] ++ pyRepeat (1+s) ' ' ++ [petal],
    [petal] ++ pyRepeat (3+s) ' ' ++ [petal]]
  let pc := p2.2.choose STEM_CHARS ' '
  (base ++ List.replicate (2+s).toNat (pyRepeat (2+s) ' ' ++ [pc.1]), pc.2)

/-- `garden.py _make_cherry_flower` on a non-Windows platform. -/
def makeCherryFlower (size : Int) (g : Rng) : List Row × Rng :=
  let p1 := g.choose ['o', '✿', '❀'] ' '
  let p2 := p1.2.choose ['.', '@'] ' '
  let s := size
  let petal := p1.1
  let center := p2.1
  let base : List Row := [
    pyRepeat (1+s) ' ' ++ [petal] ++ [' '] ++ [petal],
    pyRepeat s ' ' ++ [petal] ++ [center] ++ [petal],
    [petal] ++ pyRepeat (1+s) ' ' ++ [petal]]
  let pc := p2.2.choose STEM_CHARS ' '
  (base ++ List.replicate (1+s).toNat (pyRepeat (2+s) ' ' ++ [pc.1]), pc.2)

/-- `garden.py random_flower`, with the caller-supplied rng. -/
def randomFlower (size : Int) (g : Rng) : Option (List Row × String × Rng) :=
  let pk := g.choose ["round", "star", "tulip", "sunflower", "cherry"] ""
  let kind := pk.1
  if kind = "round" then
    (makeRoundFlower size pk.2).map (fun r => (r.1, kind, r.2))
  else if kind = "star" then
    let r := makeStarFlower size pk.2
    some (r.1, kind, r.2)
  else if kind = "sunflower" then
    let r := makeSunflower size pk.2
    some (r.1, kind, r.2)
  else if kind = "cherry" then
    let r := makeCherryFlower size pk.2
    some (r.1, kind, r.2)
  else
    let r := makeTulip size pk.2
    some (r.1, kind, r.2)

/-- `garden.py _make_pine_tree` (narrower trunk than `flowers.py`). -/
def makePineTree (size : Int) : List Row :=
  let s := max 1 size
  let foliage := (intRange 0 3).flatMap (fun layer =>
    (intRange 0 (1 + 2 * (layer + s))).map (fun row =>
      pyRepeat ((4*s + 2) - row) ' ' ++ pyRepeat (1 + 2*row) '^'))
  let trunkW := 1 + s.fdiv 2
  let trunkPad := (4*s + 2) - trunkW.fdiv 2
  foliage ++ List.replicate (1+s).toNat (pyRepeat trunkPad ' ' ++ pyRepeat trunkW '|')

/-- `garden.py _make_broad_tree` (single-character trunk); `none` models the
`lines[0]` crash on an empty canopy (`size ≤ -3`). -/
def makeBroadTree (size : Int) : Option (List Row) :=
  let radius := 2 + size
  match broadDisc radius with
  | [] => none
  | l0 :: rest =>
    let trunkCol := l0.length / 2
    some ((l0 :: rest) ++
      List.replicate (1 + size).toNat (List.replicate trunkCol ' ' ++ ['|']))

/-- `garden.py random_tree` (no stylized kind; non-Windows cherry glyph). -/
def randomTree (size : Int) (g : Rng) : Option (List Row × String × Rng) :=
  let pk := g.choose ["pine", "broad", "bonsai", "cherry"] ""
  let kind := pk.1
  if kind = "pine" then some (makePineTree size, kind, pk.2)
  else if kind = "bonsai" then
    (makeBroadTree (max 1 (size - 1))).map (fun r => (r, kind, pk.2))
  else if kind = "cherry" then
    (makeBroadTree (size + 1)).map (fun r =>
      (r.map (List.map (fun c => if c = '#' then '✿' else c)), kind, pk.2))
  else (makeBroadTree size).map (fun r => (r, kind, pk.2))

/-- The per-character color decision of `garden.py colorize_lines`: unlike
`flowers.py` there is no stem-run case, but `tree_bonsai` foliage gets the
fixed color `bright_green` without consuming the rng. -/
def colorChoice (kind : String) (g : Rng) : String × Rng :=
  if pyEndsWith kind "cherry" || pyStartsWith kind "flower_cherry" then
    g.choose ["magenta", "bright_yellow"] ""
  else if pyStartsWith kind "flower_sunflower" then
    g.choose ["yellow", "bright_yellow"] ""
  else if pyStartsWith kind "flower_" then
    g.choose ["bright_green", "green", "bright_yellow", "magenta", "red"] ""
  else if pyEndsWith kind "bonsai" || pyStartsWith kind "tree_bonsai" then
    ("bright_green", g)
  else
    g.choose ["green", "bright_green"] ""

/-- One line of `garden.py colorize_lines` with color enabled (purely
character-by-character). -/
def colorizeLine (kind : String) : List Char → Rng → List Char × Rng
  | [], g => ([], g)
  | c :: rest, g =>
    if c == ' ' then
      let q := colorizeLine kind rest g
      (c :: q.1, q.2)
    else
      let pc := colorChoice kind g
      let q := colorizeLine kind rest pc.2
      (colorWrap [c] pc.1 true ++ q.1, q.2)

def colorizeGo (kind : String) : List Row → Rng → List Row × Rng
  | [], g => ([], g)
  | ln :: ls, g =>
    let p := colorizeLine kind ln g
    let q := colorizeGo kind ls p.2
    (p.1 :: q.1, q.2)

/-- `garden.py colorize_lines`. -/
def colorizeLines (lines : List Row) (kind : String) (enabled : Bool) (g : Rng) :
    List Row × Rng :=
  if enabled then colorizeGo kind lines g else (lines, g)

end GardenPy

/-- The visible width of one plant: `max((_visible_len(ln) for ln in p), default=0)`. -/
def plantWidth (p : List Row) : Nat := natMax (p.map visibleLen)

/-- The row-groups `plants[row_start : row_start + cols]` for
`row_start in range(0, len(plants), cols)`: one slice per start index.  Both
sources coerce `cols < 1` to 1 before this point, so `c ≥ 1` at every call,
and `range(0, n, c)` then has `⌈n / c⌉` elements. -/
def chunkList (c : Nat) (l : List α) : List (List α) :=
  (List.range ((l.length + c - 1) / c)).map (fun i => (l.drop (i * c)).take c)

/-- `flowers.py render_horizontal`: each plant of a row-group is padded with
blank rows PREPENDED at the top, realizing bottom alignment. -/
def FlowersPy.renderHorizontal (plants : List (List Row)) (cols : Int) (gap : Int) :
    List Row :=
  let c := if cols < 1 then 1 else cols
  (chunkList c.toNat plants).flatMap (fun row =>
    let maxH := natMax (row.map List.length)
    let padded := row.map (fun p =>
      let w := plantWidth p
      List.replicate (maxH - p.length) (List.replicate w ' ') ++
        p.map (fun ln => ln ++ List.replicate (w - visibleLen ln) ' '))
    (List.range maxH).map (fun r =>
      pyRstrip (List.intercalate (pyRepeat gap ' ')
        (padded.map (fun b => b.getD r [])))) ++ [[]])

/-- `garden.py render_horizontal`: the blank rows are APPENDED after the
plant's own rows (`new_lines` is extended at the bottom), so a shorter plant
sits at the top of its row-group, not on the ground line. -/
def GardenPy.renderHorizontal (plants : List (List Row)) (cols : Int) (gap : Int) :
    List Row :=
  let c := if cols < 1 then 1 else cols
  (chunkList c.toNat plants).flatMap (fun row =>
    let maxH := natMax (row.map List.length)
    let padded := row.map (fun p =>
      let w := plantWidth p
      p.map (fun ln => ln ++ List.replicate (w - visibleLen ln) ' ') ++
        List.replicate (maxH - p.length) (List.replicate w ' '))
    (List.range maxH).map (fun r =>
      pyRstrip (List.intercalate (pyRepeat gap ' ')
        (padded.map (fun b => b.getD r [])))) ++ [[]])

/-- The auto-fit column computation of `print_garden` (identical in both
files): `cols = max(1, (term_w + gap) // (max_w + gap))` with the terminal
width falling back to 80 when unavailable and `max_w` defaulting to 1 for an
empty plant collection.  `none` models Python's `ZeroDivisionError` when
`max_w + gap = 0`. -/
def autoFitColsOpt (plants : List (List Row)) (gap : Int) (termWidth : Option Nat) :
    Option Int :=
  let termW : Int := (termWidth.getD 80 : Nat)
  let maxW : Int := pyMaxD 1 (plants.map (fun p => (plantWidth p : Int)))
  if maxW + gap = 0 then none
  else some (max 1 ((termW + gap).fdiv (maxW + gap)))

/-- The vertical branch of `print_garden` (identical in both files):
concatenate the plants with `gap` blank lines between them. -/
def verticalLines (gap : Int) : List (List Row) → List Row
  | [] => []
  | [p] => p
  | p :: ps => p ++ List.replicate gap.toNat [] ++ verticalLines gap ps

/-- The `--color` CLI choice. -/
inductive ColorMode where
  | auto : ColorMode
  | on : ColorMode
  | off : ColorMode
deriving DecidableEq

/-- The `--layout` CLI choice. -/
inductive LayoutMode where
  | vertical : LayoutMode
  | horizontal : LayoutMode
deriving DecidableEq

/-- The environment collaborators of one run: TTY-ness of stdout and the
terminal width (if any) reported by `shutil.get_terminal_size`. -/
structure Env where
  isatty : Bool
  termWidth : Option Nat

/-- The parsed CLI arguments of `main` (argparse itself is out of scope). -/
structure Params where
  count : Nat
  size : Int
  seed : Int
  trees : Nat
  color : ColorMode
  layout : LayoutMode
  cols : Int
  autoFit : Bool

/-- The pseudo-random algorithm (`random.Random`), as a deterministic map
from seeds to sources; both runs of a determinism experiment share it. -/
structure PRNGImpl where
  ofSeed : Int → Rng

/-- The `--color` resolution of `main`: `auto` consults `sys.stdout.isatty()`. -/
def resolveColor : ColorMode → Bool → Bool
  | ColorMode.on, _ => true
  | ColorMode.off, _ => false
  | ColorMode.auto, tty => tty

/-- `flowers.py print_garden`, returning the text written to stdout. -/
def FlowersPy.printGarden (plants : List (List Row)) (layout : LayoutMode)
    (cols : Int) (gap : Int) (autoFit : Bool) (env : Env) : Option (List Char) :=
  match layout with
  | LayoutMode.horizontal =>
    match (if autoFit then autoFitColsOpt plants gap env.termWidth else some cols) with
    | none => none
    | some c =>
      some (List.intercalate ['\n'] (FlowersPy.renderHorizontal plants c (gap * 2)) ++ ['\n'])
  | LayoutMode.vertical =>
    some (List.intercalate ['\n'] (verticalLines gap plants) ++ ['\n'])

/-- `garden.py print_garden`. -/
def GardenPy.printGarden (plants : List (List Row)) (layout : LayoutMode)
    (cols : Int) (gap : Int) (autoFit : Bool) (env : Env) : Option (List Char) :=
  match layout with
  | LayoutMode.horizontal =>
    match (if autoFit then autoFitColsOpt plants gap env.termWidth else some cols) with
    | none => none
    | some c =>
      some (List.intercalate ['\n'] (GardenPy.renderHorizontal plants c (gap * 2)) ++ ['\n'])
  | LayoutMode.vertical =>
    some (List.intercalate ['\n'] (verticalLines gap plants) ++ ['\n'])

/-- The flower loop of `flowers.py main`: each plant draws one sub-seed from
the master source, builds its own source from it, generates and colorizes. -/
def FlowersPy.genFlowers (P : PRNGImpl) (size : Int) (useColor : Bool) :
    Nat → Rng → Option (List (List Row) × Rng)
  | 0, g => some ([], g)
  | n + 1, g =>
    let ps := g.randint 0 (2 ^ 31 - 1)
    let sub := P.ofSeed ps.1
    match FlowersPy.randomFlower size sub with
    | none => none
    | some (lines, kind, sub2) =>
      let plant := (FlowersPy.colorizeLines lines ("flower_" ++ kind) useColor sub2).1
      match FlowersPy.genFlowers P size useColor n ps.2 with
      | none => none
      | some (rest, gf) => some (plant :: rest, gf)

/-- The tree loop of `flowers.py main`. -/
def FlowersPy.genTrees (P : PRNGImpl) (size : Int) (useColor : Bool) :
    Nat → Rng → Option (List (List Row) × Rng)
  | 0, g => some ([], g)
  | n + 1, g =>
    let ps := g.randint 0 (2 ^ 31 - 1)
    let sub := P.ofSeed ps.1
    match FlowersPy.randomTree size sub with
    | none => none
    | some (lines, kind, sub2) =>
      let plant := (FlowersPy.colorizeLines lines ("tree_" ++ kind) useColor sub2).1
      match FlowersPy.genTrees P size useColor n ps.2 with
      | none => none
      | some (rest, gf) => some (plant :: rest, gf)

/-- `flowers.py main` on parsed arguments: the text written to stdout. -/
def FlowersPy.mainOutput (P : PRNGImpl) (a : Params) (env : Env) : Option (List Char) :=
  let g0 := P.ofSeed a.seed
  let useColor := resolveColor a.color env.isatty
  match FlowersPy.genFlowers P a.size useColor a.count g0 with
  | none => none
  | some (fs, g1) =>
    match FlowersPy.genTrees P a.size useColor a.trees g1 with
    | none => none
    | some (ts, _) =>
      FlowersPy.printGarden (fs ++ ts) a.layout (max 1 a.cols) 1 a.autoFit env

/-- The flower loop of `garden.py main`. -/
def GardenPy.genFlowers (P : PRNGImpl) (size : Int) (useColor : Bool) :
    Nat → Rng → Option (List (List Row) × Rng)
  | 0, g => some ([], g)
  | n + 1, g =>
    let ps := g.randint 0 (2 ^ 31 - 1)
    let sub := P.ofSeed ps.1
    match GardenPy.randomFlower size sub with
    | none => none
    | some (lines, kind, sub2) =>
      let plant := (GardenPy.colorizeLines lines ("flower_" ++ kind) useColor sub2).1
      match GardenPy.genFlowers P size useColor n ps.2 with
      | none => none
      | some (rest, gf) => some (plant :: rest, gf)

/-- The tree loop of `garden.py main`. -/
def GardenPy.genTrees (P : PRNGImpl) (size : Int) (useColor : Bool) :
    Nat → Rng → Option (List (List Row) × Rng)
  | 0, g => some ([], g)
  | n + 1, g =>
    let ps := g.randint 0 (2 ^ 31 - 1)
    let sub := P.ofSeed ps.1
    match GardenPy.randomTree size sub with
    | none => none
    | some (lines, kind, sub2) =>
      let plant := (GardenPy.colorizeLines lines ("tree_" ++ kind) useColor sub2).1
      match GardenPy.genTrees P size useColor n ps.2 with
      | none => none
      | some (rest, gf) => some (plant :: rest, gf)

/-- `garden.py main` on parsed arguments: the text written to stdout. -/
def GardenPy.mainOutput (P : PRNGImpl) (a : Params) (env : Env) : Option (List Char) :=
  let g0 := P.ofSeed a.seed
  let useColor := resolveColor a.color env.isatty
  match GardenPy.genFlowers P a.size useColor a.count g0 with
  | none => none
  | some (fs, g1) =>
    match GardenPy.genTrees P a.size useColor a.trees g1 with
    | none => none
    | some (ts, _) =>
      GardenPy.printGarden (fs ++ ts) a.layout (max 1 a.cols) 1 a.autoFit env

/-- A segment of a line: either a maximal stem/trunk run of `|` characters or
one single other character.  Spec-side data for claim C2. -/
inductive Seg where
  | run : List Char → Seg
  | single : Char → Seg

/-- Split a line into maximal `|`-runs and remaining single characters. -/
def runSplit : List Char → List Seg
  | [] => []
  | c :: rest =>
    if c == '|' then
      Seg.run (c :: rest.takeWhile (fun x => x == '|')) ::
        runSplit (rest.dropWhile (fun x => x == '|'))
    else Seg.single c :: runSplit rest
termination_by l => l.length
decreasing_by
  · simp only [List.length_cons]
    exact Nat.lt_succ_of_le ((List.dropWhile_sublist _).length_le)
  · simp

/-- Modelled from the claim (C2): each maximal run of `|` is one stem/trunk
unit, colored with a FIXED category color (green for `flower_*`, brown for
`tree_*`) and consuming no randomness; spaces pass through; any other single
character draws a fresh random foliage color from the source's palette. -/
def specColorizeSegs (kind : String) : List Seg → Rng → List Char × Rng
  | [], g => ([], g)
  | Seg.run seg :: rest, g =>
    let colr := if pyStartsWith kind "flower_" then "green" else "brown"
    let q := specColorizeSegs kind rest g
    (colorWrap seg colr true ++ q.1, q.2)
  | Seg.single c :: rest, g =>
    if c == ' ' then
      let q := specColorizeSegs kind rest g
      (c :: q.1, q.2)
    else
      let pc := g.choose (FlowersPy.foliagePalette kind) ""
      let q := specColorizeSegs kind rest pc.2
      (colorWrap [c] pc.1 true ++ q.1, q.2)

/-- The row-by-row lifting of `specColorizeSegs` over a glyph grid, threading
the random source exactly like `colorize_lines` does. -/
def specColorizeLines (kind : String) : List Row → Rng → List Row × Rng
  | [], g => ([], g)
  | ln :: ls, g =>
    let p := specColorizeSegs kind (runSplit ln) g
    let q := specColorizeLines kind ls p.2
    (p.1 :: q.1, q.2)

/-- A concrete random source whose every stream draw is 0. -/
def rng0 : Rng := ⟨fun _ => 0, fun _ => 0, 0, 0⟩

/-! ### Properties of the ANSI stripper -/

theorem stripGo_nonesc (c : Char) (hc : ¬ c = '\x1b') (l : List Char) :
    stripGo [] (c :: l) = c :: stripGo [] l := by
  have : (c == '\x1b') = false := by simpa using hc
  simp [stripGo, this]

theorem digitSemi_ne_m {c : Char} (hc : (c.isDigit || c == ';') = true) :
    (c == 'm') = false := by
  rcases Bool.eq_false_or_eq_true (c == 'm') with h | h
  · exfalso
    have hcm : c = 'm' := by simpa using h
    subst hcm
    simp at hc
  · exact h

theorem stripGo_body (p q : Char) (ds body l : List Char)
    (hb : ∀ c ∈ body, (c.isDigit || c == ';') = true) :
    stripGo (p :: q :: ds) (body ++ 'm' :: l) = stripGo [] l := by
  induction body generalizing ds with
  | nil => simp [stripGo]
  | cons c body ih =>
    have hc := hb c (by simp)
    have hm := digitSemi_ne_m hc
    simp only [List.cons_append, stripGo, hm, hc, if_false, if_true, Bool.false_eq_true,
      ite_false, ite_true]
    exact ih _ (fun x hx => hb x (by simp [hx]))

theorem stripGo_code (body l : List Char)
    (hb : ∀ c ∈ body, (c.isDigit || c == ';') = true) :
    stripGo [] ('\x1b' :: '[' :: body ++ 'm' :: l) = stripGo [] l := by
  show stripGo [] ('\x1b' :: ('[' :: (body ++ 'm' :: l))) = stripGo [] l
  rw [show stripGo [] ('\x1b' :: ('[' :: (body ++ 'm' :: l))) =
      stripGo ['\x1b', '['] (body ++ 'm' :: l) by simp [stripGo]]
  exact stripGo_body _ _ _ body l hb

/-- Every code of the ANSI table (and the empty string for unknown names)
strips to nothing wherever it starts. -/
theorem stripGo_ansi (name : String) (l : List Char) :
    stripGo [] (ANSI name ++ l) = stripGo [] l := by
  unfold ANSI
  split
  · exact stripGo_code ['0'] l (by decide)
  · exact stripGo_code ['3', '1'] l (by decide)
  · exact stripGo_code ['3', '2'] l (by decide)
  · exact stripGo_code ['3', '3'] l (by decide)
  · exact stripGo_code ['3', '4'] l (by decide)
  · exact stripGo_code ['3', '5'] l (by decide)
  · exact stripGo_code ['3', '6'] l (by decide)
  · exact stripGo_code ['9', '3'] l (by decide)
  · exact stripGo_code ['9', '2'] l (by decide)
  · exact stripGo_code ['3', '8', ';', '5', ';', '9', '4'] l (by decide)
  · rfl

theorem stripGo_append_clean (seg l : List Char) (h : ∀ c ∈ seg, ¬ c = '\x1b') :
    stripGo [] (seg ++ l) = seg ++ stripGo [] l := by
  induction seg with
  | nil => rfl
  | cons c rest ih =>
    rw [List.cons_append, stripGo_nonesc c (h c (by simp)), ih (fun x hx => h x (by simp [hx]))]
    rfl

theorem stripGo_cons_reset (c : Char) (l : List Char) :
    stripGo [] (c :: (ANSI "reset" ++ l)) = c :: stripGo [] l := by
  by_cases hc : c = '\x1b'
  · subst hc
    show stripGo [] ('\x1b' :: '\x1b' :: '[' :: '0' :: 'm' :: l) = '\x1b' :: stripGo [] l
    simp [stripGo]
  · rw [stripGo_nonesc c hc, stripGo_ansi]

theorem stripGo_wrap_single (name : String) (c : Char) (l : List Char) :
    stripGo [] (colorWrap [c] name true ++ l) = c :: stripGo [] l := by
  show stripGo [] ((ANSI name ++ [c] ++ ANSI "reset") ++ l) = c :: stripGo [] l
  rw [show (ANSI name ++ [c] ++ ANSI "reset") ++ l =
      ANSI name ++ (c :: (ANSI "reset" ++ l)) by simp]
  rw [stripGo_ansi, stripGo_cons_reset]

theorem stripGo_wrap_seg (name : String) (seg l : List Char)
    (hseg : ∀ c ∈ seg, ¬ c = '\x1b') :
    stripGo [] (colorWrap seg name true ++ l) = seg ++ stripGo [] l := by
  show stripGo [] ((ANSI name ++ seg ++ ANSI "reset") ++ l) = seg ++ stripGo [] l
  rw [show (ANSI name ++ seg ++ ANSI "reset") ++ l =
      ANSI name ++ (seg ++ (ANSI "reset" ++ l)) by simp]
  rw [stripGo_ansi, stripGo_append_clean _ _ hseg, stripGo_ansi]

theorem stripAnsi_nil : stripAnsi [] = [] := rfl

theorem stripAnsi_cons_nonesc (c : Char) (hc : ¬ c = '\x1b') (l : List Char) :
    stripAnsi (c :: l) = c :: stripAnsi l :=
  stripGo_nonesc c hc l

theorem stripAnsi_wrap_single (name : String) (c : Char) (l : List Char) :
    stripAnsi (colorWrap [c] name true ++ l) = c :: stripAnsi l :=
  stripGo_wrap_single name c l

theorem stripAnsi_wrap_seg (name : String) (seg l : List Char)
    (hseg : ∀ c ∈ seg, ¬ c = '\x1b') :
    stripAnsi (colorWrap seg name true ++ l) = seg ++ stripAnsi l :=
  stripGo_wrap_seg name seg l hseg

/-! ### Colorize/strip round trip -/

theorem FlowersPy.colorizeLine_nil (kind : String) (g : Rng) :
    FlowersPy.colorizeLine kind [] g = ([], g) := by
  simp [FlowersPy.colorizeLine]

theorem FlowersPy.colorizeLine_space (kind : String) (rest : List Char) (g : Rng) :
    FlowersPy.colorizeLine kind (' ' :: rest) g =
      ((' ' :: (FlowersPy.colorizeLine kind rest g).1),
        (FlowersPy.colorizeLine kind rest g).2) := by
  rw [FlowersPy.colorizeLine]
  simp

theorem FlowersPy.colorizeLine_run (kind : String) (rest : List Char) (g : Rng) :
    FlowersPy.colorizeLine kind ('|' :: rest) g =
      (colorWrap ('|' :: rest.takeWhile (fun x => x == '|'))
          (if pyStartsWith kind "flower_" then "green" else "brown") true ++
        (FlowersPy.colorizeLine kind (rest.dropWhile (fun x => x == '|')) g).1,
        (FlowersPy.colorizeLine kind (rest.dropWhile (fun x => x == '|')) g).2) := by
  rw [FlowersPy.colorizeLine]
  simp

theorem FlowersPy.colorizeLine_other (kind : String) (c : Char) (rest : List Char)
    (g : Rng) (hs : ¬ c = ' ') (hp : ¬ c = '|') :
    FlowersPy.colorizeLine kind (c :: rest) g =
      (colorWrap [c] (g.choose (FlowersPy.foliagePalette kind) "").1 true ++
        (FlowersPy.colorizeLine kind rest (g.choose (FlowersPy.foliagePalette kind) "").2).1,
        (FlowersPy.colorizeLine kind rest (g.choose (FlowersPy.foliagePalette kind) "").2).2) := by
  rw [FlowersPy.colorizeLine]
  simp [hs, hp]

theorem FlowersPy.strip_colorizeLine_le (kind : String) :
    ∀ (n : Nat) (ln : List Char), ln.length ≤ n → ∀ g : Rng,
      stripAnsi (FlowersPy.colorizeLine kind ln g).1 = ln := by
  intro n
  induction n with
  | zero =>
    intro ln hln g
    cases ln with
    | nil =>
      rw [FlowersPy.colorizeLine_nil]
      rfl
    | cons c rest => simp at hln
  | succ n ih =>
    intro ln hln g
    cases ln with
    | nil =>
      rw [FlowersPy.colorizeLine_nil]
      rfl
    | cons c rest =>
      by_cases hs : c = ' '
      · subst hs
        rw [FlowersPy.colorizeLine_space]
        rw [stripAnsi_cons_nonesc ' ' (by decide)]
        rw [ih rest (by simpa using hln) _]
      · by_cases hp : c = '|'
        · subst hp
          rw [FlowersPy.colorizeLine_run]
          rw [stripAnsi_wrap_seg _ _ _ ?hseg]
          case hseg =>
            intro x hx
            rcases List.mem_cons.mp hx with hx | hx
            · subst hx
              decide
            · have := List.mem_takeWhile_imp hx
              intro hesc
              subst hesc
              simp at this
          rw [ih (rest.dropWhile (fun x => x == '|'))
            (Nat.le_trans ((List.dropWhile_sublist _).length_le) (by simpa using hln)) _]
          rw [List.cons_append, List.takeWhile_append_dropWhile]
        · rw [FlowersPy.colorizeLine_other kind c rest g hs hp]
          rw [stripAnsi_wrap_single]
          rw [ih rest (by simpa using hln) _]

/-- For color-enabled `flowers.py colorize_lines`, stripping the ANSI
annotations of a colorized row recovers the row exactly. -/
theorem FlowersPy.strip_colorize_row (kind : String) (ln : List Char) (g : Rng) :
    stripAnsi (FlowersPy.colorizeLine kind ln g).1 = ln :=
  FlowersPy.strip_colorizeLine_le kind ln.length ln (Nat.le_refl _) g

theorem GardenPy.strip_colorize_rowG (kind : String) :
    ∀ (ln : List Char) (g : Rng), stripAnsi (GardenPy.colorizeLine kind ln g).1 = ln := by
  intro ln
  induction ln with
  | nil => intro g; rfl
  | cons c rest ih =>
    intro g
    by_cases hs : c = ' '
    · subst hs
      show stripAnsi (' ' :: (GardenPy.colorizeLine kind rest g).1) = ' ' :: rest
      rw [stripAnsi_cons_nonesc ' ' (by decide), ih g]
    · have hb : (c == ' ') = false := by simpa using hs
      show stripAnsi ((if (c == ' ') = true then _ else _) : List Char × Rng).1 = c :: rest
      rw [hb]
      simp only [Bool.false_eq_true, if_false]
      rw [stripAnsi_wrap_single, ih _]

theorem FlowersPy.strip_colorizeGo (kind : String) :
    ∀ (lines : List Row) (g : Rng),
      (FlowersPy.colorizeGo kind lines g).1.map stripAnsi = lines := by
  intro lines
  induction lines with
  | nil => intro g; rfl
  | cons ln ls ih =>
    intro g
    show ((FlowersPy.colorizeLine kind ln g).1 ::
      (FlowersPy.colorizeGo kind ls (FlowersPy.colorizeLine kind ln g).2).1).map stripAnsi = _
    rw [List.map_cons, FlowersPy.strip_colorize_row, ih _]

theorem GardenPy.strip_colorizeGoG (kind : String) :
    ∀ (lines : List Row) (g : Rng),
      (GardenPy.colorizeGo kind lines g).1.map stripAnsi = lines := by
  intro lines
  induction lines with
  | nil => intro g; rfl
  | cons ln ls ih =>
    intro g
    show ((GardenPy.colorizeLine kind ln g).1 ::
      (GardenPy.colorizeGo kind ls (GardenPy.colorizeLine kind ln g).2).1).map stripAnsi = _
    rw [List.map_cons, GardenPy.strip_colorize_rowG, ih _]

/-! ### Claim C9: colorize/strip round trip -/

/-- C9 (amended: colorization enabled): with color on, applying `_strip_ansi`
to each row of `colorize_lines(grid, kind, enabled, rng)` recovers the
original grid character-for-character, for every grid, kind and random
source, in both implementations.  (As stated the claim also covered
`enabled = False`, where `colorize_lines` is the identity and stripping can
erase pre-existing ANSI-looking text — see the counterexample.) -/
theorem c9_strip_colorize_roundtrip (lines : List Row) (kind : String) (g : Rng) :
    (FlowersPy.colorizeLines lines kind true g).1.map stripAnsi = lines ∧
    (GardenPy.colorizeLines lines kind true g).1.map stripAnsi = lines := by
  constructor
  · exact FlowersPy.strip_colorizeGo kind lines g
  · exact GardenPy.strip_colorizeGoG kind lines g

/-- C9 counterexample: with colorization disabled, `colorize_lines` is the
identity, and `_strip_ansi` then removes the pre-existing ANSI-looking row
`"\x1b[m"`, so the claimed round trip fails for the disabled state. -/
theorem c9_counterexample :
    (FlowersPy.colorizeLines [['\x1b', '[', 'm']] "flower_round" false rng0).1.map stripAnsi ≠
      [['\x1b', '[', 'm']] := by decide

/-! ### Claim C4: visible length preservation -/

/-- C4 (amended: grids whose rows are fixed by `_strip_ansi`, in particular
every grid of plain glyphs): for any plant kind, random source and either
enabled state, colorization preserves the visible length of every row, in
both implementations.  (As stated the claim covered arbitrary rows; a row
that already looks like an ANSI code breaks it — see the counterexample.) -/
theorem c4_visible_len_preserved (lines : List Row) (kind : String) (enabled : Bool)
    (g : Rng) (hclean : ∀ ln ∈ lines, stripAnsi ln = ln) :
    (FlowersPy.colorizeLines lines kind enabled g).1.map visibleLen =
        lines.map visibleLen ∧
    (GardenPy.colorizeLines lines kind enabled g).1.map visibleLen =
        lines.map visibleLen := by
  have hR : lines.map visibleLen = lines.map List.length := by
    apply List.map_congr_left
    intro ln hln
    show (stripAnsi ln).length = ln.length
    rw [hclean ln hln]
  cases enabled
  · exact ⟨rfl, rfl⟩
  · constructor
    · show (FlowersPy.colorizeGo kind lines g).1.map visibleLen = lines.map visibleLen
      rw [hR]
      have h2 : ((FlowersPy.colorizeGo kind lines g).1.map stripAnsi).map
          List.length = lines.map List.length := by
        rw [FlowersPy.strip_colorizeGo kind lines g]
      rw [← h2, List.map_map]
      rfl
    · show (GardenPy.colorizeGo kind lines g).1.map visibleLen = lines.map visibleLen
      rw [hR]
      have h2 : ((GardenPy.colorizeGo kind lines g).1.map stripAnsi).map
          List.length = lines.map List.length := by
        rw [GardenPy.strip_colorizeGoG kind lines g]
      rw [← h2, List.map_map]
      rfl

theorem c4_visible_len_preserved_witness :
    (FlowersPy.colorizeLines [['*', ' ']] "flower_star" true rng0).1.map visibleLen =
        [['*', ' ']].map visibleLen ∧
    (GardenPy.colorizeLines [['*', ' ']] "flower_star" true rng0).1.map visibleLen =
        [['*', ' ']].map visibleLen :=
  c4_visible_len_preserved [['*', ' ']] "flower_star" true rng0 (by decide)

/-- C4 counterexample: on the one-row grid `"\x1b[m"` (visible length 0) with
color enabled, the colorizer wraps each character separately; the wrapped
characters no longer form one ANSI code after stripping the wrappers, so the
visible length becomes 3 and is not preserved. -/
theorem c4_counterexample :
    ¬ ((GardenPy.colorizeLines [['\x1b', '[', 'm']] "tree_pine" true rng0).1.map visibleLen =
      [['\x1b', '[', 'm']].map visibleLen) := by decide

/-! ### Claim C2: stem/trunk runs are single fixed-color units -/

theorem runSplit_nil : runSplit [] = [] := by
  simp [runSplit]

theorem runSplit_run (rest : List Char) :
    runSplit ('|' :: rest) =
      Seg.run ('|' :: rest.takeWhile (fun x => x == '|')) ::
        runSplit (rest.dropWhile (fun x => x == '|')) := by
  rw [runSplit]
  simp

theorem runSplit_single (c : Char) (rest : List Char) (hc : ¬ c = '|') :
    runSplit (c :: rest) = Seg.single c :: runSplit rest := by
  rw [runSplit]
  simp [hc]

theorem FlowersPy.colorizeLine_eq_spec_le (kind : String) :
    ∀ (n : Nat) (ln : List Char), ln.length ≤ n → ∀ g : Rng,
      FlowersPy.colorizeLine kind ln g = specColorizeSegs kind (runSplit ln) g := by
  intro n
  induction n with
  | zero =>
    intro ln hln g
    cases ln with
    | nil =>
      rw [FlowersPy.colorizeLine_nil, runSplit_nil]
      rfl
    | cons c rest => simp at hln
  | succ n ih =>
    intro ln hln g
    cases ln with
    | nil =>
      rw [FlowersPy.colorizeLine_nil, runSplit_nil]
      rfl
    | cons c rest =>
      by_cases hs : c = ' '
      · subst hs
        rw [FlowersPy.colorizeLine_space, runSplit_single ' ' rest (by decide)]
        rw [ih rest (by simpa using hln) g]
        rfl
      · by_cases hp : c = '|'
        · subst hp
          rw [FlowersPy.colorizeLine_run, runSplit_run]
          rw [ih (rest.dropWhile (fun x => x == '|'))
            (Nat.le_trans ((List.dropWhile_sublist _).length_le) (by simpa using hln)) g]
          rfl
        · rw [FlowersPy.colorizeLine_other kind c rest g hs hp,
            runSplit_single c rest hp]
          rw [ih rest (by simpa using hln) _]
          have hb : (c == ' ') = false := by simpa using hs
          show _ = (if (c == ' ') = true then _ else _ : List Char × Rng)
          rw [hb]
          simp only [Bool.false_eq_true, if_false]

theorem FlowersPy.colorizeGo_eq_spec (kind : String) :
    ∀ (lines : List Row) (g : Rng),
      FlowersPy.colorizeGo kind lines g = specColorizeLines kind lines g := by
  intro lines
  induction lines with
  | nil => intro g; rfl
  | cons ln ls ih =>
    intro g
    show ((FlowersPy.colorizeLine kind ln g).1 ::
        (FlowersPy.colorizeGo kind ls (FlowersPy.colorizeLine kind ln g).2).1,
        (FlowersPy.colorizeGo kind ls (FlowersPy.colorizeLine kind ln g).2).2) = _
    rw [FlowersPy.colorizeLine_eq_spec_le kind ln.length ln (Nat.le_refl _) g, ih _]
    rfl

/-- C2 (amended to `flowers.py`): with color enabled and a `flower_*` or
`tree_*` plant kind, `flowers.py colorize_lines` equals the segment-wise
spec `specColorizeLines`: each maximal run of `|` characters is one
stem/trunk unit wrapped in a single fixed category color (green for
`flower_*`, brown for `tree_*`), consuming no randomness; `garden.py`'s
colorizer has no run handling at all (see the counterexample). -/
theorem c2_flowers_run_units (kind : String)
    (_hk : pyStartsWith kind "flower_" = true ∨ pyStartsWith kind "tree_" = true)
    (lines : List Row) (g : Rng) :
    FlowersPy.colorizeLines lines kind true g = specColorizeLines kind lines g :=
  FlowersPy.colorizeGo_eq_spec kind lines g

theorem c2_flowers_run_units_witness :
    FlowersPy.colorizeLines [[' ', '|', '|']] "flower_round" true rng0 =
      specColorizeLines "flower_round" [[' ', '|', '|']] rng0 :=
  c2_flowers_run_units "flower_round" (Or.inl (by decide)) [[' ', '|', '|']] rng0

/-- C2 counterexample: `garden.py colorize_lines` does not treat a `|`-run as
one unit: on the grid `["||"]` of kind `flower_round` it wraps the two `|`
characters separately with randomly drawn foliage colors (bright_green at
this source), not as one run in fixed green, and it advances the random
source by two draws. -/
theorem c2_counterexample :
    (GardenPy.colorizeLines [['|', '|']] "flower_round" true rng0).1 =
        [ANSI "bright_green" ++ ['|'] ++ ANSI "reset" ++
          ANSI "bright_green" ++ ['|'] ++ ANSI "reset"] ∧
    (GardenPy.colorizeLines [['|', '|']] "flower_round" true rng0).1 ≠
        [colorWrap ['|', '|'] "green" true] ∧
    (GardenPy.colorizeLines [['|', '|']] "flower_round" true rng0).2.ipos = 2 := by
  refine ⟨by decide, by decide, by decide⟩

/-! ### Claim C8: bonsai foliage color -/

theorem GardenPy.colorChoice_bonsai (g : Rng) :
    GardenPy.colorChoice "tree_bonsai" g = ("bright_green", g) := rfl

theorem GardenPy.colorizeLine_bonsai :
    ∀ (ln : List Char) (g : Rng),
      GardenPy.colorizeLine "tree_bonsai" ln g =
        (ln.flatMap (fun c => if c = ' ' then [c] else colorWrap [c] "bright_green" true), g) := by
  intro ln
  induction ln with
  | nil => intro g; rfl
  | cons c rest ih =>
    intro g
    by_cases hs : c = ' '
    · subst hs
      show (' ' :: (GardenPy.colorizeLine "tree_bonsai" rest g).1,
        (GardenPy.colorizeLine "tree_bonsai" rest g).2) = _
      rw [ih g]
      simp
    · have hb : (c == ' ') = false := by simpa using hs
      show ((if (c == ' ') = true then _ else _ : List Char × Rng)) = _
      rw [hb]
      simp only [Bool.false_eq_true, if_false]
      rw [GardenPy.colorChoice_bonsai]
      show (colorWrap [c] "bright_green" true ++ (GardenPy.colorizeLine "tree_bonsai" rest g).1,
        (GardenPy.colorizeLine "tree_bonsai" rest g).2) = _
      rw [ih g]
      simp [hs]

/-- C8 (amended to `garden.py`): with color enabled, `garden.py`'s
`colorize_lines` on a `tree_bonsai` grid wraps every non-space character in
the FIXED color bright_green and performs no random draw at all (the source
comes back unchanged).  The claim restricted this to foliage characters;
`garden.py` applies it to every non-space character (it has no trunk-run
case).  `flowers.py` has no bonsai rule at all — see the counterexample. -/
theorem c8_garden_bonsai_fixed_bright_green (lines : List Row) (g : Rng) :
    GardenPy.colorizeLines lines "tree_bonsai" true g =
      (lines.map (fun ln =>
        ln.flatMap (fun c => if c = ' ' then [c] else colorWrap [c] "bright_green" true)), g) := by
  show GardenPy.colorizeGo "tree_bonsai" lines g = _
  induction lines with
  | nil => rfl
  | cons ln ls ih =>
    show ((GardenPy.colorizeLine "tree_bonsai" ln g).1 ::
        (GardenPy.colorizeGo "tree_bonsai" ls (GardenPy.colorizeLine "tree_bonsai" ln g).2).1,
        (GardenPy.colorizeGo "tree_bonsai" ls (GardenPy.colorizeLine "tree_bonsai" ln g).2).2) = _
    rw [GardenPy.colorizeLine_bonsai ln g]
    rw [ih]
    simp

/-- C8 counterexample: `flowers.py colorize_lines` has no bonsai rule.  On
the bonsai foliage character `#` of kind `tree_bonsai` it falls through to
the generic tree palette {green, bright_green}, draws from it at random
(green at this source, advancing the source by one draw) instead of using the
claimed fixed bright_green with no draw. -/
theorem c8_counterexample :
    (FlowersPy.colorizeLines [['#']] "tree_bonsai" true rng0).1 =
        [colorWrap ['#'] "green" true] ∧
    colorWrap ['#'] "green" true ≠ colorWrap ['#'] "bright_green" true ∧
    (FlowersPy.colorizeLines [['#']] "tree_bonsai" true rng0).2.ipos = rng0.ipos + 1 := by
  have h1 : FlowersPy.colorizeLine "tree_bonsai" ['#'] rng0 =
      (colorWrap ['#'] "green" true, { rng0 with ipos := 1 }) := by
    rw [FlowersPy.colorizeLine_other "tree_bonsai" '#' [] rng0 (by decide) (by decide),
      FlowersPy.colorizeLine_nil]
    simp only [Prod.mk.injEq]
    constructor
    · simp
      rfl
    · rfl
  refine ⟨?_, by decide, ?_⟩
  · show ((FlowersPy.colorizeLine "tree_bonsai" ['#'] rng0).1 ::
        (FlowersPy.colorizeGo "tree_bonsai" []
          (FlowersPy.colorizeLine "tree_bonsai" ['#'] rng0).2).1) = _
    rw [h1]
    rfl
  · show (FlowersPy.colorizeGo "tree_bonsai" []
        (FlowersPy.colorizeLine "tree_bonsai" ['#'] rng0).2).2.ipos = rng0.ipos + 1
    rw [h1]
    rfl

/-! ### Claim C1: bottom alignment in the horizontal layout -/

/-- C1 at the failing input: for the plants `[["a"], ["b","c"]]` with two
columns and gap 1, `flowers.py render_horizontal` prepends the blank padding
row — the shorter plant's row `"a"` sits on the group's LAST output line,
sharing the ground line with `"c"` — while `garden.py render_horizontal`
appends the padding after the plant's rows, leaving `"a"` on the FIRST line:
the claimed common ground line is violated by `garden.py`. -/
theorem c1_garden_render_top_aligned :
    FlowersPy.renderHorizontal [[['a']], [['b'], ['c']]] 2 1 =
      [[' ', ' ', 'b'], ['a', ' ', 'c'], []] ∧
    GardenPy.renderHorizontal [[['a']], [['b'], ['c']]] 2 1 =
      [['a', ' ', 'b'], [' ', ' ', 'c'], []] ∧
    GardenPy.renderHorizontal [[['a']], [['b'], ['c']]] 2 1 ≠
      FlowersPy.renderHorizontal [[['a']], [['b'], ['c']]] 2 1 := by
  refine ⟨by decide, by decide, by decide⟩

/-! ### Claim C7: size clamping -/

/-- C7 at failing inputs: most shape generators do NOT clamp `size` to ≥ 1.
`_make_star_flower(0)` (in both files) collapses its template rows through
negative string repetitions (`" " * (2*0 - 1) = ""`), yielding the malformed
rows `"**"` instead of a 5-wide cross, and `_make_round_flower(-2)` crashes
(modelled as `none`).  Only the pine and stylized generators (and the bonsai
call site in `random_tree`) clamp. -/
theorem c7_generators_do_not_clamp :
    (FlowersPy.makeStarFlower 0 rng0).1 =
      [['*'], ['*', '*'], ['*', '*'], ['*', '*'], ['@'], ['|']] ∧
    (FlowersPy.makeRoundFlower (-2) rng0).map Prod.fst = none ∧
    (GardenPy.makeStarFlower 0 rng0).1 =
      [['*'], ['*', '*'], ['*', '*'], ['*', '*'], ['@'], ['|']] := by
  refine ⟨by decide, by decide, by decide⟩

/-! ### Claim C5: auto-fit columns -/

/-- C5 (amended: requires `maxPlantWidth + gap > 0`, excluding only the
degenerate input of gap 0 with every plant empty, on which Python raises
`ZeroDivisionError`): the auto-fit computation of `print_garden` (identical
in both files) yields exactly `max(1, (termWidth + gap) // (maxPlantWidth +
gap))`, with the terminal width falling back to 80 when unavailable and
`maxPlantWidth` the maximum visible width over all plants computed once
globally (defaulting to 1 for an empty collection), and every produced
column count is ≥ 1. -/
theorem c5_autofit_formula (plants : List (List Row)) (gap : Int) (tw : Option Nat)
    (hpos : 0 < pyMaxD 1 (plants.map (fun p => (plantWidth p : Int))) + gap) :
    autoFitColsOpt plants gap tw =
      some (max 1 (((tw.getD 80 : Nat) + gap).fdiv
        (pyMaxD 1 (plants.map (fun p => (plantWidth p : Int))) + gap))) ∧
    ∀ c : Int, autoFitColsOpt plants gap tw = some c → 1 ≤ c := by
  constructor
  · simp only [autoFitColsOpt]
    rw [if_neg (by omega)]
  · intro c hc
    simp only [autoFitColsOpt] at hc
    rw [if_neg (by omega)] at hc
    injection hc with h
    subst h
    exact le_max_left 1 _

theorem c5_autofit_formula_witness :
    autoFitColsOpt [] (1 : Int) none =
      some (max 1 ((((none : Option Nat).getD 80 : Nat) + (1 : Int)).fdiv
        (pyMaxD 1 (([] : List (List Row)).map (fun p => (plantWidth p : Int))) + (1 : Int)))) ∧
    ∀ c : Int, autoFitColsOpt [] (1 : Int) none = some c → 1 ≤ c :=
  c5_autofit_formula [] 1 none (by decide)

/-- C5 counterexample (to the "always ≥ 1 for every input" part): with gap 0
and one empty plant, `max_w + gap = 0`, and Python's
`(term_w + gap) // (max_w + gap)` raises `ZeroDivisionError` — no column
count (≥ 1 or otherwise) is produced. -/
theorem c5_counterexample :
    autoFitColsOpt [[]] 0 (some 80) = none ∧
    ¬ ∃ c : Int, autoFitColsOpt [[]] 0 (some 80) = some c ∧ 1 ≤ c := by
  refine ⟨by decide, ?_⟩
  rintro ⟨c, hc, _⟩
  rw [show autoFitColsOpt [[]] 0 (some 80) = none from by decide] at hc
  cases hc

/-! ### Claim C3: determinism of a run -/

theorem resolveColor_env_free (c : ColorMode) (t1 t2 : Bool)
    (hc : c = ColorMode.on ∨ c = ColorMode.off) :
    resolveColor c t1 = resolveColor c t2 := by
  rcases hc with h | h <;> subst h <;> rfl

theorem FlowersPy.printGarden_env_free (plants : List (List Row)) (layout : LayoutMode)
    (cols gap : Int) (autoFit : Bool) (e1 e2 : Env)
    (hfit : autoFit = false ∨ e1.termWidth = e2.termWidth) :
    FlowersPy.printGarden plants layout cols gap autoFit e1 =
      FlowersPy.printGarden plants layout cols gap autoFit e2 := by
  cases layout with
  | vertical => rfl
  | horizontal =>
    rcases hfit with h | h
    · subst h
      rfl
    · unfold FlowersPy.printGarden
      rw [h]

theorem GardenPy.printGarden_env_freeG (plants : List (List Row)) (layout : LayoutMode)
    (cols gap : Int) (autoFit : Bool) (e1 e2 : Env)
    (hfit : autoFit = false ∨ e1.termWidth = e2.termWidth) :
    GardenPy.printGarden plants layout cols gap autoFit e1 =
      GardenPy.printGarden plants layout cols gap autoFit e2 := by
  cases layout with
  | vertical => rfl
  | horizontal =>
    rcases hfit with h | h
    · subst h
      rfl
    · unfold GardenPy.printGarden
      rw [h]

theorem FlowersPy.mainOutput_env_free (P : PRNGImpl) (a : Params) (e1 e2 : Env)
    (hc : a.color = ColorMode.on ∨ a.color = ColorMode.off)
    (hfit : a.autoFit = false ∨ e1.termWidth = e2.termWidth) :
    FlowersPy.mainOutput P a e1 = FlowersPy.mainOutput P a e2 := by
  unfold FlowersPy.mainOutput
  rw [resolveColor_env_free a.color e1.isatty e2.isatty hc]
  dsimp only
  cases hgf : FlowersPy.genFlowers P a.size (resolveColor a.color e2.isatty) a.count
      (P.ofSeed a.seed) with
  | none => rfl
  | some v =>
    obtain ⟨fs, g1⟩ := v
    dsimp only
    cases hgt : FlowersPy.genTrees P a.size (resolveColor a.color e2.isatty) a.trees g1 with
    | none => rfl
    | some w =>
      obtain ⟨ts, g2⟩ := w
      dsimp only
      exact FlowersPy.printGarden_env_free _ _ _ _ _ e1 e2 hfit

theorem GardenPy.mainOutput_env_freeG (P : PRNGImpl) (a : Params) (e1 e2 : Env)
    (hc : a.color = ColorMode.on ∨ a.color = ColorMode.off)
    (hfit : a.autoFit = false ∨ e1.termWidth = e2.termWidth) :
    GardenPy.mainOutput P a e1 = GardenPy.mainOutput P a e2 := by
  unfold GardenPy.mainOutput
  rw [resolveColor_env_free a.color e1.isatty e2.isatty hc]
  dsimp only
  cases hgf : GardenPy.genFlowers P a.size (resolveColor a.color e2.isatty) a.count
      (P.ofSeed a.seed) with
  | none => rfl
  | some v =>
    obtain ⟨fs, g1⟩ := v
    dsimp only
    cases hgt : GardenPy.genTrees P a.size (resolveColor a.color e2.isatty) a.trees g1 with
    | none => rfl
    | some w =>
      obtain ⟨ts, g2⟩ := w
      dsimp only
      exact GardenPy.printGarden_env_freeG _ _ _ _ _ e1 e2 hfit

/-- C3: with fixed parameters, a fixed master seed, color forced on or off
(not auto) and auto-fit disabled or a fixed terminal width, the text a run
writes is independent of the environment (TTY-ness, reported terminal
width): two runs of either program produce identical output.  The
pseudo-random algorithm `P` (the seed-to-stream map shared by both runs) and
the host platform's glyph set are fixed properties of the installation. -/
theorem c3_deterministic_output (P : PRNGImpl) (a : Params) (e1 e2 : Env)
    (hc : a.color = ColorMode.on ∨ a.color = ColorMode.off)
    (hfit : a.autoFit = false ∨ e1.termWidth = e2.termWidth) :
    FlowersPy.mainOutput P a e1 = FlowersPy.mainOutput P a e2 ∧
    GardenPy.mainOutput P a e1 = GardenPy.mainOutput P a e2 :=
  ⟨FlowersPy.mainOutput_env_free P a e1 e2 hc hfit,
   GardenPy.mainOutput_env_freeG P a e1 e2 hc hfit⟩

theorem c3_deterministic_output_witness :
    FlowersPy.mainOutput ⟨fun _ => rng0⟩
        ⟨1, 1, 42, 0, ColorMode.off, LayoutMode.vertical, 3, false⟩ ⟨true, some 120⟩ =
      FlowersPy.mainOutput ⟨fun _ => rng0⟩
        ⟨1, 1, 42, 0, ColorMode.off, LayoutMode.vertical, 3, false⟩ ⟨false, none⟩ ∧
    GardenPy.mainOutput ⟨fun _ => rng0⟩
        ⟨1, 1, 42, 0, ColorMode.off, LayoutMode.vertical, 3, false⟩ ⟨true, some 120⟩ =
      GardenPy.mainOutput ⟨fun _ => rng0⟩
        ⟨1, 1, 42, 0, ColorMode.off, LayoutMode.vertical, 3, false⟩ ⟨false, none⟩ :=
  c3_deterministic_output ⟨fun _ => rng0⟩
    ⟨1, 1, 42, 0, ColorMode.off, LayoutMode.vertical, 3, false⟩ ⟨true, some 120⟩
    ⟨false, none⟩ (Or.inr rfl) (Or.inl rfl)

/-! ### Claim C6: the round flower's stalk -/

theorem Rng.randint_mem (g : Rng) (a b : Int) (hab : a ≤ b) :
    a ≤ (g.randint a b).1 ∧ (g.randint a b).1 ≤ b := by
  unfold Rng.randint Rng.nextNat
  dsimp only
  constructor
  · have h0 : 0 ≤ (g.ints g.ipos : Int) % (b - a + 1) := Int.emod_nonneg _ (by omega)
    omega
  · have h1 : (g.ints g.ipos : Int) % (b - a + 1) < b - a + 1 :=
      Int.emod_lt_of_pos _ (by omega)
    omega

theorem Rng.choose_mem (g : Rng) (l : List α) (dflt : α) (hl : l ≠ []) :
    (g.choose l dflt).1 ∈ l := by
  unfold Rng.choose Rng.nextNat
  dsimp only
  have hlt : (g.ints g.ipos) % l.length < l.length :=
    Nat.mod_lt _ (List.length_pos.mpr hl)
  rw [List.getD_eq_getElem l dflt hlt]
  exact List.getElem_mem hlt

theorem discRowsGo_length (radius : Int) (petal center : Char) :
    ∀ (ys : List Int) (g : Rng),
      (discRowsGo radius petal center ys g).1.length = ys.length := by
  intro ys
  induction ys with
  | nil => intro g; rfl
  | cons y ys ih =>
    intro g
    show (pyRstrip _ :: (discRowsGo radius petal center ys _).1).length = ys.length + 1
    rw [List.length_cons, ih _]

theorem intRange_length (a b : Int) : (intRange a b).length = (b - a).toNat := by
  unfold intRange
  rw [List.length_map, List.length_range]

/-- Shape of `flowers.py _make_round_flower` for size ≥ 1: disc rows, then a
stalk of drawn height at column `len(lines[0]) // 2`. -/
theorem FlowersPy.makeRoundFlower_shape (size : Int) (g : Rng) (hsz : 1 ≤ size) :
    ∃ l0 rest h gf,
      FlowersPy.makeRoundFlower size g = some ((l0 :: rest) ++
        List.replicate (Int.toNat h)
          (List.replicate (l0.length / 2) ' ' ++ [FlowersPy.STEM_CHAR]), gf) ∧
      1 + size ≤ h ∧ h ≤ 2 + 2*size := by
  unfold FlowersPy.makeRoundFlower
  dsimp only
  set pd := roundDisc (1 + size)
    ((g.choose FlowersPy.PETAL_CHARS ' ').1)
    (((g.choose FlowersPy.PETAL_CHARS ' ').2.choose FlowersPy.CENTER_CHARS ' ').1)
    (((g.choose FlowersPy.PETAL_CHARS ' ').2.choose FlowersPy.CENTER_CHARS ' ').2) with hpd
  have hlen : pd.1.length = (2*(1 + size) + 1).toNat := by
    rw [hpd]
    unfold roundDisc
    rw [discRowsGo_length, intRange_length]
    omega
  have hne : pd.1 ≠ [] := by
    intro hnil
    rw [hnil] at hlen
    simp at hlen
    omega
  obtain ⟨l0, rest, hcons⟩ : ∃ l0 rest, pd.1 = l0 :: rest := by
    cases hq : pd.1 with
    | nil => exact absurd hq hne
    | cons a as => exact ⟨a, as, rfl⟩
  rw [hcons]
  obtain ⟨hlo, hhi⟩ := Rng.randint_mem pd.2 (1 + size) (2 + 2*size) (by omega)
  exact ⟨l0, rest, (pd.2.randint (1 + size) (2 + 2*size)).1,
    (pd.2.randint (1 + size) (2 + 2*size)).2, rfl, hlo, hhi⟩
theorem GardenPy.makeRoundFlower_shapeG (size : Int) (g : Rng) (hsz : 1 ≤ size) :
    ∃ l0 rest h c gf,
      GardenPy.makeRoundFlower size g = some ((l0 :: rest) ++
        List.replicate (Int.toNat h)
          (List.replicate (l0.length / 2) ' ' ++ [c]), gf) ∧
      1 + size ≤ h ∧ h ≤ 2 + 2*size ∧ c ∈ GardenPy.STEM_CHARS := by
  unfold GardenPy.makeRoundFlower
  dsimp only
  set pd := roundDisc (1 + size)
    ((g.choose GardenPy.PETAL_CHARS ' ').1)
    (((g.choose GardenPy.PETAL_CHARS ' ').2.choose GardenPy.CENTER_CHARS ' ').1)
    (((g.choose GardenPy.PETAL_CHARS ' ').2.choose GardenPy.CENTER_CHARS ' ').2) with hpd
  have hlen : pd.1.length = (2*(1 + size) + 1).toNat := by
    rw [hpd]
    unfold roundDisc
    rw [discRowsGo_length, intRange_length]
    omega
  have hne : pd.1 ≠ [] := by
    intro hnil
    rw [hnil] at hlen
    simp at hlen
    omega
  obtain ⟨l0, rest, hcons⟩ : ∃ l0 rest, pd.1 = l0 :: rest := by
    cases hq : pd.1 with
    | nil => exact absurd hq hne
    | cons a as => exact ⟨a, as, rfl⟩
  rw [hcons]
  obtain ⟨hlo, hhi⟩ := Rng.randint_mem pd.2 (1 + size) (2 + 2*size) (by omega)
  refine ⟨l0, rest, (pd.2.randint (1 + size) (2 + 2*size)).1,
    ((pd.2.randint (1 + size) (2 + 2*size)).2.choose GardenPy.STEM_CHARS ' ').1,
    ((pd.2.randint (1 + size) (2 + 2*size)).2.choose GardenPy.STEM_CHARS ' ').2,
    rfl, hlo, hhi, ?_⟩
  exact Rng.choose_mem _ _ _ (by decide)

/-- C6 (amended): for every size ≥ 1 and every random source, the round
flower consists of the rasterized disc (one row per `y ∈ [-radius, radius]`)
followed by a stalk whose height is drawn from `[1+size, 2+2·size]` and
whose column is `len(lines[0]) // 2` — half the TRIMMED length of the disc's
top row, which in general is NOT the horizontal center of the disc (see the
counterexample).  The same holds in `garden.py`, whose stalk character is
drawn from `STEM_CHARS`. -/
theorem c6_round_flower_stalk (size : Int) (g : Rng) (hsz : 1 ≤ size) :
    (∃ l0 rest h gf,
      FlowersPy.makeRoundFlower size g = some ((l0 :: rest) ++
        List.replicate (Int.toNat h)
          (List.replicate (l0.length / 2) ' ' ++ [FlowersPy.STEM_CHAR]), gf) ∧
      1 + size ≤ h ∧ h ≤ 2 + 2*size) ∧
    (∃ l0 rest h c gf,
      GardenPy.makeRoundFlower size g = some ((l0 :: rest) ++
        List.replicate (Int.toNat h)
          (List.replicate (l0.length / 2) ' ' ++ [c]), gf) ∧
      1 + size ≤ h ∧ h ≤ 2 + 2*size ∧ c ∈ GardenPy.STEM_CHARS) :=
  ⟨FlowersPy.makeRoundFlower_shape size g hsz, GardenPy.makeRoundFlower_shapeG size g hsz⟩

theorem c6_round_flower_stalk_witness :
    (∃ l0 rest h gf,
      FlowersPy.makeRoundFlower 1 rng0 = some ((l0 :: rest) ++
        List.replicate (Int.toNat h)
          (List.replicate (l0.length / 2) ' ' ++ [FlowersPy.STEM_CHAR]), gf) ∧
      1 + 1 ≤ h ∧ h ≤ 2 + 2*1) ∧
    (∃ l0 rest h c gf,
      GardenPy.makeRoundFlower 1 rng0 = some ((l0 :: rest) ++
        List.replicate (Int.toNat h)
          (List.replicate (l0.length / 2) ' ' ++ [c]), gf) ∧
      1 + 1 ≤ h ∧ h ≤ 2 + 2*1 ∧ c ∈ GardenPy.STEM_CHARS) :=
  c6_round_flower_stalk 1 rng0 (by decide)

theorem discCell_zero (radius y x : Int) (petal center : Char) (g : Rng)
    (hz : g.rats g.rpos = 0) :
    discCell radius y x petal center g =
      (if 4*(x*x) + 16*(y*y) ≤ (4*radius + 1)*(4*radius + 1) then
        (if x.natAbs ≤ 1 ∧ y.natAbs ≤ 1 then center else petal)
      else ' ', g.nextRat.2) := by
  have hiff : ((x : ℚ)/2 * ((x : ℚ)/2) + (y : ℚ)*(y : ℚ) ≤
      ((radius : ℚ) + 1/4 - (0 : ℚ) * (3/5)) ^ 2) ↔
      (4*(x*x) + 16*(y*y) ≤ (4*radius + 1)*(4*radius + 1)) := by
    rw [show ((radius : ℚ) + 1/4 - (0 : ℚ) * (3/5)) = ((radius : ℚ) + 1/4) by ring]
    have h2 : ((x : ℚ)/2 * ((x : ℚ)/2) + (y : ℚ)*(y : ℚ)) * 16 =
        ((4*(x*x) + 16*(y*y) : Int) : ℚ) := by
      push_cast
      ring
    have h3 : (((radius : ℚ) + 1/4) ^ 2) * 16 =
        (((4*radius + 1)*(4*radius + 1) : Int) : ℚ) := by
      push_cast
      ring
    constructor
    · intro h
      have h16 := mul_le_mul_of_nonneg_right h (by norm_num : (0:ℚ) ≤ 16)
      rw [h2, h3] at h16
      exact_mod_cast h16
    · intro h
      have hq : ((4*(x*x) + 16*(y*y) : Int) : ℚ) ≤
          (((4*radius + 1)*(4*radius + 1) : Int) : ℚ) := by exact_mod_cast h
      rw [← h2, ← h3] at hq
      exact le_of_mul_le_mul_right hq (by norm_num)
  unfold discCell Rng.randReal Rng.nextRat
  dsimp only
  rw [hz]
  simp only [hiff]
  split_ifs <;> rfl

theorem discRowGo_zero (radius y : Int) (petal center : Char) :
    ∀ (xs : List Int) (g : Rng), (∀ k, g.rats k = 0) →
      (discRowGo radius y petal center xs g).1 =
        xs.map (fun x =>
          if 4*(x*x) + 16*(y*y) ≤ (4*radius + 1)*(4*radius + 1) then
            (if x.natAbs ≤ 1 ∧ y.natAbs ≤ 1 then center else petal)
          else ' ') ∧
      (discRowGo radius y petal center xs g).2.ints = g.ints ∧
      (discRowGo radius y petal center xs g).2.ipos = g.ipos ∧
      (discRowGo radius y petal center xs g).2.rats = g.rats := by
  intro xs
  induction xs with
  | nil => intro g hg; exact ⟨rfl, rfl, rfl, rfl⟩
  | cons x xs ih =>
    intro g hg
    have hcell := discCell_zero radius y x petal center g (hg _)
    have hg2 : ∀ k, (discCell radius y x petal center g).2.rats k = 0 := by
      rw [hcell]
      exact hg
    obtain ⟨ih1, ih2, ih3, ih4⟩ := ih (discCell radius y x petal center g).2 hg2
    refine ⟨?_, ?_, ?_, ?_⟩
    · show (discCell radius y x petal center g).1 ::
        (discRowGo radius y petal center xs (discCell radius y x petal center g).2).1 = _
      rw [ih1, hcell]
      rfl
    · show (discRowGo radius y petal center xs (discCell radius y x petal center g).2).2.ints
        = g.ints
      rw [ih2, hcell]
      rfl
    · show (discRowGo radius y petal center xs (discCell radius y x petal center g).2).2.ipos
        = g.ipos
      rw [ih3, hcell]
      rfl
    · show (discRowGo radius y petal center xs (discCell radius y x petal center g).2).2.rats
        = g.rats
      rw [ih4, hcell]
      rfl

theorem discRowsGo_zero (radius : Int) (petal center : Char) :
    ∀ (ys : List Int) (g : Rng), (∀ k, g.rats k = 0) →
      (discRowsGo radius petal center ys g).1 =
        ys.map (fun y =>
          pyRstrip ((intRange (-(2*radius)) (2*radius + 1)).map (fun x =>
            if 4*(x*x) + 16*(y*y) ≤ (4*radius + 1)*(4*radius + 1) then
              (if x.natAbs ≤ 1 ∧ y.natAbs ≤ 1 then center else petal)
            else ' '))) ∧
      (discRowsGo radius petal center ys g).2.ints = g.ints ∧
      (discRowsGo radius petal center ys g).2.ipos = g.ipos := by
  intro ys
  induction ys with
  | nil => intro g hg; exact ⟨rfl, rfl, rfl⟩
  | cons y ys ih =>
    intro g hg
    obtain ⟨hr1, hr2, hr3, hr4⟩ :=
      discRowGo_zero radius y petal center (intRange (-(2*radius)) (2*radius + 1)) g hg
    have hg2 : ∀ k,
        (discRowGo radius y petal center (intRange (-(2*radius)) (2*radius + 1)) g).2.rats k
          = 0 := by
      rw [hr4]
      exact hg
    obtain ⟨ih1, ih2, ih3⟩ := ih _ hg2
    refine ⟨?_, ?_, ?_⟩
    · show pyRstrip (discRowGo radius y petal center
          (intRange (-(2*radius)) (2*radius + 1)) g).1 ::
        (discRowsGo radius petal center ys _).1 = _
      rw [ih1, hr1]
      rfl
    · show (discRowsGo radius petal center ys _).2.ints = g.ints
      rw [ih2, hr2]
    · show (discRowsGo radius petal center ys _).2.ipos = g.ipos
      rw [ih3, hr3]

/-- C6 counterexample: at size 1 with the all-zero source (so every noise
draw is 0), the disc spans 9 columns at its widest (center column 4 =
2·radius), but its rstripped TOP row `"  *****"` has length 7, so the stalk
lands at column `7 // 2 = 3` — one column left of the disc's horizontal
center 4: the stalk is NOT centered under the shape. -/
theorem c6_counterexample :
    (FlowersPy.makeRoundFlower 1 rng0).map Prod.fst = some
      [[' ', ' ', '*', '*', '*', '*', '*'],
       ['*', '*', '*', '@', '@', '@', '*', '*', '*'],
       ['*', '*', '*', '@', '@', '@', '*', '*', '*'],
       ['*', '*', '*', '@', '@', '@', '*', '*', '*'],
       [' ', ' ', '*', '*', '*', '*', '*'],
       [' ', ' ', ' ', '|'], [' ', ' ', ' ', '|']] ∧
    (3 : Nat) ≠ 2 * 2 := by
  refine ⟨?_, by decide⟩
  obtain ⟨h1, h2, h3⟩ := discRowsGo_zero (1 + 1)
    ((rng0.choose FlowersPy.PETAL_CHARS ' ').1)
    (((rng0.choose FlowersPy.PETAL_CHARS ' ').2.choose FlowersPy.CENTER_CHARS ' ').1)
    (intRange (-(1 + 1)) ((1 + 1) + 1))
    (((rng0.choose FlowersPy.PETAL_CHARS ' ').2.choose FlowersPy.CENTER_CHARS ' ').2)
    (fun _ => rfl)
  unfold FlowersPy.makeRoundFlower roundDisc
  dsimp only
  unfold Rng.randint Rng.nextNat
  dsimp only
  rw [h1, h2, h3]
  decide

/-! ### Claim C10: the final row is a stem/trunk row -/

theorem getLast?_append_replicate {α : Type} (pre : List α) (n : Nat) (r : α)
    (hn : 0 < n) : (pre ++ List.replicate n r).getLast? = some r := by
  cases n with
  | zero => omega
  | succ m =>
    rw [List.replicate_succ' m r, ← List.append_assoc]
    exact List.getLast?_concat _

theorem stem_char_ne_space {c : Char} (h : c ∈ GardenPy.STEM_CHARS) : ¬ c = ' ' := by
  fin_cases h <;> decide

theorem FlowersPy.makeStarFlower_last (size : Int) (g : Rng) (hsz : 1 ≤ size) :
    ∃ pad n c, (FlowersPy.makeStarFlower size g).1.getLast? =
      some (List.replicate pad ' ' ++ List.replicate n c) ∧ 0 < n ∧ ¬ c = ' ' := by
  refine ⟨(2*size).toNat, 1, '|', ?_, by omega, by decide⟩
  unfold FlowersPy.makeStarFlower
  dsimp only
  rw [getLast?_append_replicate]
  · rfl
  · have h0 := (Rng.randint_mem
      (((g.choose FlowersPy.PETAL_CHARS ' ').2.choose FlowersPy.CENTER_CHARS ' ').2)
      0 size (by omega)).1
    omega

theorem FlowersPy.makeTulip_last (size : Int) (g : Rng) (hsz : 1 ≤ size) :
    ∃ pad n c, (FlowersPy.makeTulip size g).1.getLast? =
      some (List.replicate pad ' ' ++ List.replicate n c) ∧ 0 < n ∧ ¬ c = ' ' := by
  refine ⟨(2 + size).toNat, 1, '|', ?_, by omega, by decide⟩
  unfold FlowersPy.makeTulip
  dsimp only
  rw [getLast?_append_replicate]
  · rfl
  · have h0 := (Rng.randint_mem
      ((((g.choose FlowersPy.PETAL_CHARS ' ').2.choose FlowersPy.CENTER_CHARS ' ').2.choose
        ["<>", "/\\", "()", "~~"] "").2)
      0 2 (by omega)).1
    omega

theorem FlowersPy.makeSunflower_last (size : Int) (g : Rng) (hsz : 1 ≤ size) :
    ∃ pad n c, (FlowersPy.makeSunflower size g).1.getLast? =
      some (List.replicate pad ' ' ++ List.replicate n c) ∧ 0 < n ∧ ¬ c = ' ' := by
  refine ⟨(2 + size).toNat, 1, '|', ?_, by omega, by decide⟩
  unfold FlowersPy.makeSunflower
  dsimp only
  rw [getLast?_append_replicate]
  · rfl
  · omega

theorem FlowersPy.makeCherryFlower_last (size : Int) (g : Rng) (hsz : 1 ≤ size) :
    ∃ pad n c, (FlowersPy.makeCherryFlower size g).1.getLast? =
      some (List.replicate pad ' ' ++ List.replicate n c) ∧ 0 < n ∧ ¬ c = ' ' := by
  refine ⟨(2 + size).toNat, 1, '|', ?_, by omega, by decide⟩
  unfold FlowersPy.makeCherryFlower
  dsimp only
  rw [getLast?_append_replicate]
  · rfl
  · omega

theorem GardenPy.makeStarFlower_lastG (size : Int) (g : Rng) (hsz : 1 ≤ size) :
    ∃ pad n c, (GardenPy.makeStarFlower size g).1.getLast? =
      some (List.replicate pad ' ' ++ List.replicate n c) ∧ 0 < n ∧ ¬ c = ' ' := by
  have hmem := Rng.choose_mem
    (((g.choose GardenPy.PETAL_CHARS ' ').2.choose GardenPy.CENTER_CHARS ' ').2)
    GardenPy.STEM_CHARS ' ' (by decide)
  refine ⟨(2*size).toNat, 1,
    ((((g.choose GardenPy.PETAL_CHARS ' ').2.choose GardenPy.CENTER_CHARS ' ').2).choose
      GardenPy.STEM_CHARS ' ').1, ?_, by omega, stem_char_ne_space hmem⟩
  unfold GardenPy.makeStarFlower
  dsimp only
  rw [getLast?_append_replicate]
  · rfl
  · have h0 := (Rng.randint_mem
      (((((g.choose GardenPy.PETAL_CHARS ' ').2.choose GardenPy.CENTER_CHARS ' ').2).choose
        GardenPy.STEM_CHARS ' ').2)
      0 size (by omega)).1
    omega

theorem GardenPy.makeTulip_lastG (size : Int) (g : Rng) (hsz : 1 ≤ size) :
    ∃ pad n c, (GardenPy.makeTulip size g).1.getLast? =
      some (List.replicate pad ' ' ++ List.replicate n c) ∧ 0 < n ∧ ¬ c = ' ' := by
  have hmem := Rng.choose_mem
    ((((g.choose GardenPy.PETAL_CHARS ' ').2.choose GardenPy.CENTER_CHARS ' ').2.choose
      ["<>", "/\\", "()", "~~"] "").2)
    GardenPy.STEM_CHARS ' ' (by decide)
  refine ⟨(2 + size).toNat, 1,
    (((((g.choose GardenPy.PETAL_CHARS ' ').2.choose GardenPy.CENTER_CHARS ' ').2.choose
      ["<>", "/\\", "()", "~~"] "").2).choose GardenPy.STEM_CHARS ' ').1,
    ?_, by omega, stem_char_ne_space hmem⟩
  unfold GardenPy.makeTulip
  dsimp only
  rw [getLast?_append_replicate]
  · rfl
  · have h0 := (Rng.randint_mem
      ((((((g.choose GardenPy.PETAL_CHARS ' ').2.choose GardenPy.CENTER_CHARS ' ').2.choose
        ["<>", "/\\", "()", "~~"] "").2).choose GardenPy.STEM_CHARS ' ').2)
      0 2 (by omega)).1
    omega

theorem GardenPy.makeSunflower_lastG (size : Int) (g : Rng) (hsz : 1 ≤ size) :
    ∃ pad n c, (GardenPy.makeSunflower size g).1.getLast? =
      some (List.replicate pad ' ' ++ List.replicate n c) ∧ 0 < n ∧ ¬ c = ' ' := by
  have hmem := Rng.choose_mem
    (((g.choose ['0', 'O', '*', '@'] ' ').2.choose ['@', '0', 'O'] ' ').2)
    GardenPy.STEM_CHARS ' ' (by decide)
  refine ⟨(2 + size).toNat, 1,
    ((((g.choose ['0', 'O', '*', '@'] ' ').2.choose ['@', '0', 'O'] ' ').2).choose
      GardenPy.STEM_CHARS ' ').1, ?_, by omega, stem_char_ne_space hmem⟩
  unfold GardenPy.makeSunflower
  dsimp only
  rw [getLast?_append_replicate]
  · rfl
  · omega

theorem GardenPy.makeCherryFlower_lastG (size : Int) (g : Rng) (hsz : 1 ≤ size) :
    ∃ pad n c, (GardenPy.makeCherryFlower size g).1.getLast? =
      some (List.replicate pad ' ' ++ List.replicate n c) ∧ 0 < n ∧ ¬ c = ' ' := by
  have hmem := Rng.choose_mem
    (((g.choose ['o', '✿', '❀'] ' ').2.choose ['.', '@'] ' ').2)
    GardenPy.STEM_CHARS ' ' (by decide)
  refine ⟨(2 + size).toNat, 1,
    ((((g.choose ['o', '✿', '❀'] ' ').2.choose ['.', '@'] ' ').2).choose
      GardenPy.STEM_CHARS ' ').1, ?_, by omega, stem_char_ne_space hmem⟩
  unfold GardenPy.makeCherryFlower
  dsimp only
  rw [getLast?_append_replicate]
  · rfl
  · omega

theorem FlowersPy.makePineTree_last (size : Int) :
    ∃ pad n c, (FlowersPy.makePineTree size).getLast? =
      some (List.replicate pad ' ' ++ List.replicate n c) ∧ 0 < n ∧ ¬ c = ' ' := by
  have h1 : (1 : Int) ≤ max 1 size := le_max_left 1 size
  refine ⟨((4*(max 1 size) + 2) - (1 + max 1 size).fdiv 2).toNat,
    (1 + max 1 size).toNat, '|', ?_, by omega, by decide⟩
  unfold FlowersPy.makePineTree
  dsimp only
  rw [getLast?_append_replicate]
  · rfl
  · omega

theorem GardenPy.makePineTree_lastG (size : Int) :
    ∃ pad n c, (GardenPy.makePineTree size).getLast? =
      some (List.replicate pad ' ' ++ List.replicate n c) ∧ 0 < n ∧ ¬ c = ' ' := by
  have h1 : (1 : Int) ≤ max 1 size := le_max_left 1 size
  have h2 : (0 : Int) ≤ (max 1 size).fdiv 2 := Int.fdiv_nonneg (by omega) (by omega)
  refine ⟨((4*(max 1 size) + 2) - (1 + (max 1 size).fdiv 2).fdiv 2).toNat,
    (1 + (max 1 size).fdiv 2).toNat, '|', ?_, by omega, by decide⟩
  unfold GardenPy.makePineTree
  dsimp only
  rw [getLast?_append_replicate]
  · rfl
  · omega

theorem broadDisc_length (radius : Int) :
    (broadDisc radius).length = (2*radius + 1).toNat := by
  unfold broadDisc
  rw [List.length_map, intRange_length]
  omega

theorem FlowersPy.makeBroadTree_last (size : Int) (hsz : 1 ≤ size) :
    ∃ rows, FlowersPy.makeBroadTree size = some rows ∧
      ∃ pad n, rows.getLast? =
        some (List.replicate pad ' ' ++ List.replicate n '|') ∧ 0 < n := by
  have hlen : (broadDisc (2 + size)).length = (2*(2 + size) + 1).toNat :=
    broadDisc_length (2 + size)
  obtain ⟨l0, rest, hcons⟩ : ∃ l0 rest, broadDisc (2 + size) = l0 :: rest := by
    cases hq : broadDisc (2 + size) with
    | nil =>
      rw [hq] at hlen
      simp at hlen
      omega
    | cons a as => exact ⟨a, as, rfl⟩
  unfold FlowersPy.makeBroadTree
  dsimp only
  rw [hcons]
  refine ⟨_, rfl,
    (max 0 ((Int.ofNat l0.length).fdiv 2 - (1 + size * 2).fdiv 2)).toNat,
    (1 + size * 2).toNat, ?_, by omega⟩
  rw [getLast?_append_replicate]
  · rfl
  · omega

theorem GardenPy.makeBroadTree_lastG (size : Int) (hsz : 1 ≤ size) :
    ∃ rows, GardenPy.makeBroadTree size = some rows ∧
      ∃ pad n, rows.getLast? =
        some (List.replicate pad ' ' ++ List.replicate n '|') ∧ 0 < n := by
  have hlen : (broadDisc (2 + size)).length = (2*(2 + size) + 1).toNat :=
    broadDisc_length (2 + size)
  obtain ⟨l0, rest, hcons⟩ : ∃ l0 rest, broadDisc (2 + size) = l0 :: rest := by
    cases hq : broadDisc (2 + size) with
    | nil =>
      rw [hq] at hlen
      simp at hlen
      omega
    | cons a as => exact ⟨a, as, rfl⟩
  unfold GardenPy.makeBroadTree
  dsimp only
  rw [hcons]
  refine ⟨_, rfl, l0.length / 2, 1, ?_, by omega⟩
  rw [getLast?_append_replicate]
  · rfl
  · omega

theorem FlowersPy.makeStylizedTree_last (size : Int) (g : Rng) :
    ∃ pad n c, (FlowersPy.makeStylizedTree size g).1.getLast? =
      some (List.replicate pad ' ' ++ List.replicate n c) ∧ 0 < n ∧ ¬ c = ' ' := by
  have h1 : (1 : Int) ≤ max 1 size := le_max_left 1 size
  unfold FlowersPy.makeStylizedTree
  dsimp only
  rw [getLast?_append_replicate]
  · exact ⟨_, (1 + (max 1 size) * 2).toNat, '|', rfl, by omega, by decide⟩
  · omega

theorem FlowersPy.randomFlower_last (size : Int) (g : Rng) (hsz : 1 ≤ size) :
    ∃ rows kind g2, FlowersPy.randomFlower size g = some (rows, kind, g2) ∧
      ∃ pad n c, rows.getLast? = some (List.replicate pad ' ' ++ List.replicate n c) ∧
        0 < n ∧ ¬ c = ' ' := by
  have hmem := Rng.choose_mem g ["round", "star", "tulip", "sunflower", "cherry"] ""
    (by decide)
  unfold FlowersPy.randomFlower
  dsimp only
  simp only [List.mem_cons, List.not_mem_nil, or_false] at hmem
  rcases hmem with h | h | h | h | h
  · rw [h, if_pos rfl]
    obtain ⟨l0, rest, ht, gf, heq, hlo, _⟩ :=
      FlowersPy.makeRoundFlower_shape size
        ((g.choose ["round", "star", "tulip", "sunflower", "cherry"] "").2) hsz
    rw [heq]
    dsimp only [Option.map]
    refine ⟨_, _, _, rfl, l0.length / 2, 1, '|', ?_, by omega, by decide⟩
    rw [getLast?_append_replicate]
    · rfl
    · omega
  · rw [h, if_neg (by decide), if_pos rfl]
    obtain ⟨pad, n, c, hlast, hn, hc⟩ := FlowersPy.makeStarFlower_last size
      ((g.choose ["round", "star", "tulip", "sunflower", "cherry"] "").2) hsz
    exact ⟨_, _, _, rfl, pad, n, c, hlast, hn, hc⟩
  · rw [h, if_neg (by decide), if_neg (by decide), if_neg (by decide), if_neg (by decide)]
    obtain ⟨pad, n, c, hlast, hn, hc⟩ := FlowersPy.makeTulip_last size
      ((g.choose ["round", "star", "tulip", "sunflower", "cherry"] "").2) hsz
    exact ⟨_, _, _, rfl, pad, n, c, hlast, hn, hc⟩
  · rw [h, if_neg (by decide), if_neg (by decide), if_pos rfl]
    obtain ⟨pad, n, c, hlast, hn, hc⟩ := FlowersPy.makeSunflower_last size
      ((g.choose ["round", "star", "tulip", "sunflower", "cherry"] "").2) hsz
    exact ⟨_, _, _, rfl, pad, n, c, hlast, hn, hc⟩
  · rw [h, if_neg (by decide), if_neg (by decide), if_neg (by decide), if_pos rfl]
    obtain ⟨pad, n, c, hlast, hn, hc⟩ := FlowersPy.makeCherryFlower_last size
      ((g.choose ["round", "star", "tulip", "sunflower", "cherry"] "").2) hsz
    exact ⟨_, _, _, rfl, pad, n, c, hlast, hn, hc⟩

theorem GardenPy.randomFlower_lastG (size : Int) (g : Rng) (hsz : 1 ≤ size) :
    ∃ rows kind g2, GardenPy.randomFlower size g = some (rows, kind, g2) ∧
      ∃ pad n c, rows.getLast? = some (List.replicate pad ' ' ++ List.replicate n c) ∧
        0 < n ∧ ¬ c = ' ' := by
  have hmem := Rng.choose_mem g ["round", "star", "tulip", "sunflower", "cherry"] ""
    (by decide)
  unfold GardenPy.randomFlower
  dsimp only
  simp only [List.mem_cons, List.not_mem_nil, or_false] at hmem
  rcases hmem with h | h | h | h | h
  · rw [h, if_pos rfl]
    obtain ⟨l0, rest, ht, c, gf, heq, hlo, _, hcmem⟩ :=
      GardenPy.makeRoundFlower_shapeG size
        ((g.choose ["round", "star", "tulip", "sunflower", "cherry"] "").2) hsz
    rw [heq]
    dsimp only [Option.map]
    refine ⟨_, _, _, rfl, l0.length / 2, 1, c, ?_, by omega, stem_char_ne_space hcmem⟩
    rw [getLast?_append_replicate]
    · rfl
    · omega
  · rw [h, if_neg (by decide), if_pos rfl]
    obtain ⟨pad, n, c, hlast, hn, hc⟩ := GardenPy.makeStarFlower_lastG size
      ((g.choose ["round", "star", "tulip", "sunflower", "cherry"] "").2) hsz
    exact ⟨_, _, _, rfl, pad, n, c, hlast, hn, hc⟩
  · rw [h, if_neg (by decide), if_neg (by decide), if_neg (by decide), if_neg (by decide)]
    obtain ⟨pad, n, c, hlast, hn, hc⟩ := GardenPy.makeTulip_lastG size
      ((g.choose ["round", "star", "tulip", "sunflower", "cherry"] "").2) hsz
    exact ⟨_, _, _, rfl, pad, n, c, hlast, hn, hc⟩
  · rw [h, if_neg (by decide), if_neg (by decide), if_pos rfl]
    obtain ⟨pad, n, c, hlast, hn, hc⟩ := GardenPy.makeSunflower_lastG size
      ((g.choose ["round", "star", "tulip", "sunflower", "cherry"] "").2) hsz
    exact ⟨_, _, _, rfl, pad, n, c, hlast, hn, hc⟩
  · rw [h, if_neg (by decide), if_neg (by decide), if_neg (by decide), if_pos rfl]
    obtain ⟨pad, n, c, hlast, hn, hc⟩ := GardenPy.makeCherryFlower_lastG size
      ((g.choose ["round", "star", "tulip", "sunflower", "cherry"] "").2) hsz
    exact ⟨_, _, _, rfl, pad, n, c, hlast, hn, hc⟩

theorem FlowersPy.randomTree_last (size : Int) (g : Rng) (hsz : 1 ≤ size) :
    ∃ rows kind g2, FlowersPy.randomTree size g = some (rows, kind, g2) ∧
      ∃ pad n c, rows.getLast? = some (List.replicate pad ' ' ++ List.replicate n c) ∧
        0 < n ∧ ¬ c = ' ' := by
  have hmem := Rng.choose_mem g ["pine", "broad", "bonsai", "cherry", "stylized"] ""
    (by decide)
  unfold FlowersPy.randomTree
  dsimp only
  simp only [List.mem_cons, List.not_mem_nil, or_false] at hmem
  rcases hmem with h | h | h | h | h
  · rw [h, if_pos rfl]
    obtain ⟨pad, n, c, hlast, hn, hc⟩ := FlowersPy.makePineTree_last size
    exact ⟨_, _, _, rfl, pad, n, c, hlast, hn, hc⟩
  · rw [h, if_neg (by decide), if_neg (by decide), if_neg (by decide), if_neg (by decide)]
    obtain ⟨rows, hrows, pad, n, hlast, hn⟩ := FlowersPy.makeBroadTree_last size hsz
    rw [hrows]
    dsimp only [Option.map]
    exact ⟨_, _, _, rfl, pad, n, '|', hlast, hn, by decide⟩
  · rw [h, if_neg (by decide), if_pos rfl]
    obtain ⟨rows, hrows, pad, n, hlast, hn⟩ :=
      FlowersPy.makeBroadTree_last (max 1 (size - 1)) (le_max_left _ _)
    rw [hrows]
    dsimp only [Option.map]
    exact ⟨_, _, _, rfl, pad, n, '|', hlast, hn, by decide⟩
  · rw [h, if_neg (by decide), if_neg (by decide), if_pos rfl]
    obtain ⟨rows, hrows, pad, n, hlast, hn⟩ :=
      FlowersPy.makeBroadTree_last (size + 1) (by omega)
    rw [hrows]
    dsimp only [Option.map]
    refine ⟨_, _, _, rfl, pad, n, '|', ?_, hn, by decide⟩
    rw [List.getLast?_map, hlast]
    dsimp only [Option.map]
    rw [List.map_append, List.map_replicate, List.map_replicate]
    simp
  · rw [h, if_neg (by decide), if_neg (by decide), if_neg (by decide), if_pos rfl]
    obtain ⟨pad, n, c, hlast, hn, hc⟩ := FlowersPy.makeStylizedTree_last (size + 1)
      ((g.choose ["pine", "broad", "bonsai", "cherry", "stylized"] "").2)
    exact ⟨_, _, _, rfl, pad, n, c, hlast, hn, hc⟩

theorem GardenPy.randomTree_lastG (size : Int) (g : Rng) (hsz : 1 ≤ size) :
    ∃ rows kind g2, GardenPy.randomTree size g = some (rows, kind, g2) ∧
      ∃ pad n c, rows.getLast? = some (List.replicate pad ' ' ++ List.replicate n c) ∧
        0 < n ∧ ¬ c = ' ' := by
  have hmem := Rng.choose_mem g ["pine", "broad", "bonsai", "cherry"] "" (by decide)
  unfold GardenPy.randomTree
  dsimp only
  simp only [List.mem_cons, List.not_mem_nil, or_false] at hmem
  rcases hmem with h | h | h | h
  · rw [h, if_pos rfl]
    obtain ⟨pad, n, c, hlast, hn, hc⟩ := GardenPy.makePineTree_lastG size
    exact ⟨_, _, _, rfl, pad, n, c, hlast, hn, hc⟩
  · rw [h, if_neg (by decide), if_neg (by decide), if_neg (by decide)]
    obtain ⟨rows, hrows, pad, n, hlast, hn⟩ := GardenPy.makeBroadTree_lastG size hsz
    rw [hrows]
    dsimp only [Option.map]
    exact ⟨_, _, _, rfl, pad, n, '|', hlast, hn, by decide⟩
  · rw [h, if_neg (by decide), if_pos rfl]
    obtain ⟨rows, hrows, pad, n, hlast, hn⟩ :=
      GardenPy.makeBroadTree_lastG (max 1 (size - 1)) (le_max_left _ _)
    rw [hrows]
    dsimp only [Option.map]
    exact ⟨_, _, _, rfl, pad, n, '|', hlast, hn, by decide⟩
  · rw [h, if_neg (by decide), if_neg (by decide), if_pos rfl]
    obtain ⟨rows, hrows, pad, n, hlast, hn⟩ :=
      GardenPy.makeBroadTree_lastG (size + 1) (by omega)
    rw [hrows]
    dsimp only [Option.map]
    refine ⟨_, _, _, rfl, pad, n, '|', ?_, hn, by decide⟩
    rw [List.getLast?_map, hlast]
    dsimp only [Option.map]
    rw [List.map_append, List.map_replicate, List.map_replicate]
    simp

/-- C10: for every size ≥ 1 and every random source, each of `random_flower`
and `random_tree` (in both files) succeeds and yields a grid whose final row
exists (the grid is nonempty) and consists of left padding spaces followed by
a nonempty run of one non-space stem/trunk character — visible ground-line
content for the layout. -/
theorem c10_final_row_stem (size : Int) (g : Rng) (hsz : 1 ≤ size) :
    (∃ rows kind g2, FlowersPy.randomFlower size g = some (rows, kind, g2) ∧
      ∃ pad n c, rows.getLast? = some (List.replicate pad ' ' ++ List.replicate n c) ∧
        0 < n ∧ ¬ c = ' ') ∧
    (∃ rows kind g2, FlowersPy.randomTree size g = some (rows, kind, g2) ∧
      ∃ pad n c, rows.getLast? = some (List.replicate pad ' ' ++ List.replicate n c) ∧
        0 < n ∧ ¬ c = ' ') ∧
    (∃ rows kind g2, GardenPy.randomFlower size g = some (rows, kind, g2) ∧
      ∃ pad n c, rows.getLast? = some (List.replicate pad ' ' ++ List.replicate n c) ∧
        0 < n ∧ ¬ c = ' ') ∧
    (∃ rows kind g2, GardenPy.randomTree size g = some (rows, kind, g2) ∧
      ∃ pad n c, rows.getLast? = some (List.replicate pad ' ' ++ List.replicate n c) ∧
        0 < n ∧ ¬ c = ' ') :=
  ⟨FlowersPy.randomFlower_last size g hsz, FlowersPy.randomTree_last size g hsz,
   GardenPy.randomFlower_lastG size g hsz, GardenPy.randomTree_lastG size g hsz⟩

theorem c10_final_row_stem_witness :
    (∃ rows kind g2, FlowersPy.randomFlower 1 rng0 = some (rows, kind, g2) ∧
      ∃ pad n c, rows.getLast? = some (List.replicate pad ' ' ++ List.replicate n c) ∧
        0 < n ∧ ¬ c = ' ') ∧
    (∃ rows kind g2, FlowersPy.randomTree 1 rng0 = some (rows, kind, g2) ∧
      ∃ pad n c, rows.getLast? = some (List.replicate pad ' ' ++ List.replicate n c) ∧
        0 < n ∧ ¬ c = ' ') ∧
    (∃ rows kind g2, GardenPy.randomFlower 1 rng0 = some (rows, kind, g2) ∧
      ∃ pad n c, rows.getLast? = some (List.replicate pad ' ' ++ List.replicate n c) ∧
        0 < n ∧ ¬ c = ' ') ∧
    (∃ rows kind g2, GardenPy.randomTree 1 rng0 = some (rows, kind, g2) ∧
      ∃ pad n c, rows.getLast? = some (List.replicate pad ' ' ++ List.replicate n c) ∧
        0 < n ∧ ¬ c = ' ') :=
  c10_final_row_stem 1 rng0 (by decide)
